import Mathlib

/-!
Verification of the ai-hedge-fund multi-agent analysis pipeline.

This file is a shallow embedding, in Lean 4, of the deterministic core of the
repository: the Nancy Pelosi persona evaluators (`src/agents/nancy_pelosi.py`),
the Ben Graham persona evaluators (`src/agents/ben_graham.py`), and the round
table engine (`src/round_table/engine.py`, `src/round_table/main.py`).

Modelling conventions:
* Python floats are modelled as exact rationals (`ℚ`); decimal literals such as
  `0.2` or `0.65` are embedded as the exact rationals they denote in the source
  text.  Non-finite floats (inf/nan) are outside the model.
* Python `None`-able values are modelled with `Option`; Python truthiness of a
  number is `≠ 0`, of a string is `≠ ""`, of a list is `≠ []`.
* Python exceptions relevant to the claims are modelled with `Except PyErr`;
  functions that cannot raise are plain functions.
* External collaborators (the data providers and the LLM) are parameters: per
  the specification they never raise and always return a value, so they are
  modelled as total functions supplied by the caller.
* Python dicts are modelled as insertion-ordered association lists with
  replace-on-assignment (`aset`) and first-match lookup (`alookup`); keys are
  unique by construction exactly as in a Python dict.
* `math.sqrt` comparisons in `analyze_valuation_graham` are embedded by the
  equivalent comparisons of squares (both sides are nonnegative at every use
  site); the square root appearing inside human-readable detail strings is
  rendered with a rational approximation, since no claim depends on it.
* Decimal string formatting (`{:.2f}` etc.) is reproduced digit-for-digit up to
  the rounding of the final decimal (round half away from zero instead of the
  binary-float round-trip), which no claim depends on.
-/

namespace AIHedgeFund

/-- Python exception classes that the embedded code can raise. -/
inductive PyErr where
  | nameError
  | typeError
deriving DecidableEq, Repr

/-! ## String utilities mirroring the Python primitives used by the source -/

/-- ASCII lower-casing of one character; the keyword matching in the source
only ever lower-cases ASCII text. -/
def lowerChar (c : Char) : Char :=
  if 65 ≤ c.toNat ∧ c.toNat ≤ 90 then Char.ofNat (c.toNat + 32) else c

/-- Python `str.lower()` (on the ASCII alphabet). -/
def pyLower (s : String) : String := ⟨s.data.map lowerChar⟩

/-- Membership of `needle` as a contiguous substring, at char-list level. -/
def containsSub (needle : List Char) : List Char → Bool
  | [] => needle.isEmpty
  | c :: rest => needle.isPrefixOf (c :: rest) || containsSub needle rest

/-- Python `needle in hay` on strings. -/
def pyIn (needle hay : String) : Bool := containsSub needle.data hay.data

/-- Lexicographic order on char lists by code point. -/
def charListLt : List Char → List Char → Bool
  | [], [] => false
  | [], _ :: _ => true
  | _ :: _, [] => false
  | a :: as, b :: bs =>
    if a.toNat < b.toNat then true
    else if b.toNat < a.toNat then false
    else charListLt as bs

/-- Python `<` on strings (lexicographic by code point). -/
def pyStrLt (a b : String) : Bool := charListLt a.data b.data

/-- The apostrophe character, used when rebuilding Python string literals. -/
def apos : String := String.singleton (Char.ofNat 39)

/-- Python `repr` of a list of strings, e.g. `[x, y]` rendered with quotes. -/
def pyListRepr (l : List String) : String :=
  "[" ++ ", ".intercalate (l.map (fun s => apos ++ s ++ apos)) ++ "]"

/-- Association-list lookup with Python-dict semantics (first match; keys are
unique by construction). -/
def alookup {β : Type} (k : String) : List (String × β) → Option β
  | [] => none
  | (k0, v) :: rest => if k0 = k then some v else alookup k rest

/-- Association-list assignment with Python-dict semantics: replace in place
if the key exists, otherwise append at the end. -/
def aset {β : Type} (k : String) (v : β) : List (String × β) → List (String × β)
  | [] => [(k, v)]
  | (k0, v0) :: rest => if k0 = k then (k0, v) :: rest else (k0, v0) :: aset k v rest

/-! ## Decimal formatting helpers (used only inside detail strings) -/

/-- Round half away from zero to an integer. -/
def roundHalfAway (q : ℚ) : ℤ :=
  if q < 0 then -⌊-q + 1 / 2⌋ else ⌊q + 1 / 2⌋

/-- Left-pad a string of digits with zeros to the given length. -/
def padZeros (s : String) (n : ℕ) : String :=
  if s.length < n then String.mk (List.replicate (n - s.length) '0') ++ s else s

/-- Python `format(q, ".Nf")` up to the rounding of the last decimal. -/
def fmtFixed (prec : ℕ) (q : ℚ) : String :=
  let scaled := roundHalfAway (q * (10 : ℚ) ^ prec)
  let sign := if scaled < 0 then "-" else ""
  let n := scaled.natAbs
  if prec = 0 then sign ++ toString n
  else sign ++ toString (n / 10 ^ prec) ++ "." ++ padZeros (toString (n % 10 ^ prec)) prec

/-- Helper for `groupDigits`: walk reversed digits inserting a comma every
three characters. -/
def groupDigitsAux : List Char → ℕ → List Char
  | [], _ => []
  | c :: cs, k => if k = 3 then ',' :: c :: groupDigitsAux cs 1 else c :: groupDigitsAux cs (k + 1)

/-- Group the digits of a natural number with thousands separators. -/
def groupDigits (n : ℕ) : String :=
  String.mk (groupDigitsAux (toString n).data.reverse 0).reverse

/-- Python `format(q, ",.2f")` (thousands separators, two decimals). -/
def fmtComma2 (q : ℚ) : String :=
  let scaled := roundHalfAway (q * 100)
  let sign := if scaled < 0 then "-" else ""
  let n := scaled.natAbs
  sign ++ groupDigits (n / 100) ++ "." ++ padZeros (toString (n % 100)) 2

/-- Python `format(q, ".Np")` percentage formatting. -/
def fmtPercent (prec : ℕ) (q : ℚ) : String := fmtFixed prec (q * 100) ++ "%"

/-- Rational approximation of `math.sqrt`, used only to render the Graham
number inside detail strings; every branch condition that the source takes on
a square root is embedded as the equivalent comparison of squares. -/
def sqrtApprox (q : ℚ) : ℚ :=
  if q ≤ 0 then 0 else (Nat.sqrt (⌊q * 10 ^ 12⌋).toNat : ℚ) / 10 ^ 6

/-! ## Data model of the provider records (`src/tools/api.py`) -/

/-- One company news record; `sentiment` is optional in the feed. -/
structure CompanyNews where
  title : String
  date : String
  sentiment : Option String := none
deriving Repr, DecidableEq

/-- One insider trade record; `transaction_date` may be missing. -/
structure InsiderTrade where
  transaction_date : Option String := none
  transaction_shares : ℚ := 0
deriving Repr, DecidableEq

/-- One financial line-item record.  The dynamic Python model carries a field
only when requested and possibly `null`: both are `none` here (the source
always tests `hasattr` together with `is not None`). -/
structure LineItem where
  revenue : Option ℚ := none
  net_income : Option ℚ := none
  outstanding_shares : Option ℚ := none
  total_assets : Option ℚ := none
  research_and_development : Option ℚ := none
  goodwill_and_intangible_assets : Option ℚ := none
  earnings_per_share : Option ℚ := none
  book_value_per_share : Option ℚ := none
  total_liabilities : Option ℚ := none
  current_assets : Option ℚ := none
  current_liabilities : Option ℚ := none
  dividends_and_other_cash_distributions : Option ℚ := none
deriving Repr, DecidableEq

/-- Result record `{score, details}` shared by most evaluators. -/
structure ScoreDetails where
  score : ℚ
  details : String
deriving Repr, DecidableEq

/-! ## Nancy Pelosi evaluators (`src/agents/nancy_pelosi.py`) -/

/-- Keywords of `analyze_legislation_impact` (lines 161-167). -/
def legislation_keywords : List String :=
  ["bill", "act", "legislation", "congress", "senate", "house", "regulation",
   "regulatory", "policy", "subsidies", "tax credit", "incentive", "stimulus",
   "appropriation", "federal funding", "government program", "committee hearing",
   "draft legislation", "upcoming vote", "markup session", "lobbying",
   "earmark", "omnibus", "reconciliation"]

/-- Effective sentiment of a news record: the source substitutes "neutral"
for a missing or falsy (empty) sentiment. -/
def newsSentiment (n : CompanyNews) : String :=
  match n.sentiment with
  | some s => if s = "" then "neutral" else s
  | none => "neutral"

/-- True when the lower-cased title contains one of the keywords. -/
def titleHasKeyword (kws : List String) (n : CompanyNews) : Bool :=
  kws.any (fun k => pyIn k (pyLower n.title))

/-- Result record of `analyze_legislation_impact`. -/
structure LegislationAnalysis where
  score : ℚ
  details : String
  relevant_news_count : ℕ
  positive_legislation_count : ℕ
  negative_legislation_count : ℕ
deriving Repr, DecidableEq

/-- Embedding of `analyze_legislation_impact` (nancy_pelosi.py lines 149-224). -/
def analyze_legislation_impact (company_news : List CompanyNews) (_ticker : String) :
    LegislationAnalysis :=
  if company_news.isEmpty then
    { score := 0, details := "No news data available for legislation analysis",
      relevant_news_count := 0, positive_legislation_count := 0,
      negative_legislation_count := 0 }
  else
    let relevant := company_news.filter (titleHasKeyword legislation_keywords)
    let pos := relevant.filter (fun n => newsSentiment n = "positive")
    let neg := relevant.filter (fun n => newsSentiment n = "negative")
    let loopDetails := company_news.filterMap (fun n =>
      if titleHasKeyword legislation_keywords n then
        if newsSentiment n = "positive" then
          some ("Positive legislation impact: " ++ n.title)
        else if newsSentiment n = "negative" then
          some ("Negative legislation impact: " ++ n.title)
        else none
      else none)
    let score0 : ℚ := (pos.length : ℚ) - (neg.length : ℚ)
    let activityBonus : Bool := relevant.length > 5
    let score1 := if activityBonus then score0 + 1 else score0
    let d1 := if activityBonus then
        ["High legislative activity: " ++ toString relevant.length ++ " relevant news items"]
      else []
    let net : ℤ := (pos.length : ℤ) - (neg.length : ℤ)
    let (score2, d2) : ℚ × List String :=
      if net > 3 then
        (score1 + 3, ["Highly favorable legislative outlook: +" ++ toString net ++
          " - positions before public awareness advisable"])
      else if net > 0 then
        (score1 + 2, ["Positive legislative outlook: +" ++ toString net ++
          " - early strategic positioning recommended"])
      else if net < -3 then
        (score1 - 2, ["Highly unfavorable legislative outlook: " ++ toString net ++
          " - consider defensive positioning"])
      else if net < 0 then
        (score1 - 1, ["Negative legislative outlook: " ++ toString net ++
          " - portfolio adjustments may be prudent"])
      else (score1, [])
    let allDetails := loopDetails ++ d1 ++ d2
    { score := max 0 score2,
      details := if allDetails.isEmpty then "No significant legislative impacts detected"
        else "; ".intercalate allDetails,
      relevant_news_count := relevant.length,
      positive_legislation_count := pos.length,
      negative_legislation_count := neg.length }

/-- Keywords of `analyze_government_contracts` (lines 241-246). -/
def contract_keywords : List String :=
  ["contract", "procurement", "award", "bid", "tender", "government deal",
   "federal contract", "defense contract", "agency award", "government client",
   "government purchase", "government supplier", "vendor", "appropriation",
   "request for proposal", "RFP", "no-bid contract", "sole source"]

/-- Embedding of `analyze_government_contracts` (nancy_pelosi.py lines 227-295). -/
def analyze_government_contracts (financial_line_items : List LineItem)
    (company_news : List CompanyNews) : ScoreDetails :=
  let contractNews := company_news.filter (titleHasKeyword contract_keywords)
  let d0 := contractNews.map (fun n => "Contract potential indicated in news: " ++ n.title)
  let c := contractNews.length
  let (score1, d1) : ℚ × List String :=
    if c > 3 then (3, ["Significant contract news: " ++ toString c ++ " related items"])
    else if c > 0 then (1, ["Some contract news: " ++ toString c ++ " related items"])
    else (0, [])
  let (score2, d2) : ℚ × List String :=
    match financial_line_items with
    | [] => (0, [])
    | first :: _ =>
      let (sg, dg) : ℚ × List String :=
        match first.goodwill_and_intangible_assets with
        | some g =>
          if g ≠ 0 then
            let ratio : ℚ := match first.total_assets with
              | some ta => if ta ≠ 0 then g / ta else 0
              | none => 0
            if ratio > 3 / 10 then
              (1, ["High goodwill ratio (" ++ fmtFixed 2 ratio ++
                ") suggests acquisitions of contracted businesses"])
            else (0, [])
          else (0, [])
        | none => (0, [])
      let revenues := financial_line_items.filterMap (·.revenue)
      let (sv, dv) : ℚ × List String :=
        if revenues.length ≥ 3 then
          let vol : ℚ :=
            if revenues.all (0 < ·) then
              ((revenues.zip revenues.tail).foldl
                (fun s p => s + |p.1 / p.2 - 1|) 0) / ((revenues.length : ℚ) - 1)
            else 1
          if vol < 1 / 10 then
            (2, ["Highly stable revenue pattern (volatility: " ++ fmtFixed 2 vol ++
              ") suggests long-term contracts"])
          else if vol < 2 / 10 then
            (1, ["Relatively stable revenue (volatility: " ++ fmtFixed 2 vol ++
              ") suggests possible contract base"])
          else (0, [])
        else (0, [])
      (sg + sv, dg ++ dv)
  let score := score1 + score2
  let d3 : List String :=
    if score ≥ 4 then ["Strong government contracting position represents significant profit opportunity"]
    else if score ≥ 2 then ["Moderate government contracting potential indicates possible profit opportunity"]
    else []
  let allDetails := d0 ++ d1 ++ d2 ++ d3
  { score := score,
    details := if allDetails.isEmpty then "No significant government contract potential detected"
      else "; ".intercalate allDetails }

/-- Policy areas of `analyze_policy_trends` (lines 309-316), in the insertion
order of the Python dict. -/
def policy_areas : List (String × List String) :=
  [("technology", ["tech", "technology", "software", "data", "privacy",
      "cybersecurity", "ai", "artificial intelligence"]),
   ("healthcare", ["health", "medical", "medicare", "medicaid", "affordable care",
      "pharma", "drug", "vaccine"]),
   ("finance", ["bank", "financial", "credit", "loan", "interest rate",
      "federal reserve", "treasury"]),
   ("energy", ["energy", "oil", "gas", "renewable", "solar", "wind", "climate",
      "carbon", "emissions"]),
   ("infrastructure", ["infrastructure", "construction", "transportation",
      "highway", "bridge", "road", "rail"]),
   ("defense", ["defense", "military", "security", "weapons", "contractor",
      "army", "navy", "air force"])]

/-- Priority sectors of `analyze_policy_trends` (line 341). -/
def priority_sectors : List String := ["infrastructure", "technology", "healthcare", "energy"]

/-- Embedding of `analyze_policy_trends` (nancy_pelosi.py lines 298-360).
The argument is `Option (List CompanyNews)` to distinguish Python `None` from
a list: the source iterates `company_news` in a `for` loop *before* its
`if not company_news` guard (which only appears at line 351, after the whole
computation), so a `None` argument raises `TypeError` at the loop. -/
def analyze_policy_trends (company_news : Option (List CompanyNews)) (_ticker : String) :
    Except PyErr ScoreDetails :=
  match company_news with
  | none => .error .typeError
  | some newsList =>
    let counts := policy_areas.map (fun p =>
      (p.1, (newsList.filter (titleHasKeyword p.2)).length))
    let trending := (counts.filter (fun p => p.2 > 2)).map (·.1)
    let areaScore : ℚ := counts.foldl
      (fun s p => if p.2 > 5 then s + 1 else if p.2 > 2 then s + 1 / 2 else s) 0
    let areaDetails := counts.filterMap (fun p =>
      if p.2 > 5 then
        some ("Significant " ++ p.1 ++ " policy activity: " ++ toString p.2 ++
          " news items - potential strategic advantage")
      else if p.2 > 2 then
        some ("Some " ++ p.1 ++ " policy activity: " ++ toString p.2 ++
          " news items - worth monitoring closely")
      else none)
    let prioHit := trending.any (priority_sectors.contains ·)
    let (score1, d1) : ℚ × List String :=
      if prioHit then
        (areaScore + 2, ["Company in high-priority policy sectors: " ++
          pyListRepr (trending.filter (priority_sectors.contains ·)) ++
          " - favorable positioning"])
      else (areaScore, [])
    let (score2, d2) : ℚ × List String :=
      if trending.length > 1 then
        (score1 + 1, ["Multiple policy areas (" ++ ", ".intercalate trending ++
          ") create cross-sector opportunities"])
      else (score1, [])
    if newsList.isEmpty then
      .ok { score := 0, details := "No news data available for policy trend analysis" }
    else
      let allDetails := areaDetails ++ d1 ++ d2
      .ok { score := score2,
            details := if allDetails.isEmpty then "No significant policy trends detected"
              else "; ".intercalate allDetails }

/-- Keywords of `analyze_information_asymmetry` (lines 375-381). -/
def asymmetry_keywords : List String :=
  ["upcoming announcement", "pending approval", "not yet public", "confidential",
   "internal documents", "sources familiar", "expected to announce", "advance notice",
   "exclusive", "unreleased", "leaked", "to be determined", "advance knowledge",
   "preliminary results", "draft report", "early findings", "before official release",
   "closed-door meeting", "private briefing", "insider", "tip", "rumor", "not widely known"]

/-- High-value terms of `analyze_information_asymmetry` (line 395). -/
def high_value_terms : List String :=
  ["approval", "contract award", "investigation", "regulatory action"]

/-- Embedding of `analyze_information_asymmetry` (nancy_pelosi.py lines 363-433).
The module never imports `datetime`, so the moment the timing-pattern loop
(lines 418-428) reaches `datetime.strptime` — which happens exactly when some
truthy trade date lexicographically precedes some truthy news date — the
function raises `NameError`. -/
def analyze_information_asymmetry (company_news : List CompanyNews)
    (insider_trades : List InsiderTrade) (_ticker : String) : Except PyErr ScoreDetails :=
  let asymNews := company_news.filter (titleHasKeyword asymmetry_keywords)
  let highValue := asymNews.filter (titleHasKeyword high_value_terms)
  let d0 := company_news.filterMap (fun n =>
    if titleHasKeyword asymmetry_keywords n ∧ titleHasKeyword high_value_terms n then
      some ("High-value information asymmetry: " ++ n.title)
    else none)
  let (score1, d1) : ℚ × List String :=
    if highValue.length > 0 then
      (3, ["Significant information advantage opportunities: " ++
        toString highValue.length ++ " high-value items"])
    else if asymNews.length > 2 then
      (2, ["Multiple information advantage opportunities: " ++
        toString asymNews.length ++ " items"])
    else if asymNews.length > 0 then
      (1, ["Possible information advantage: " ++ toString asymNews.length ++ " items"])
    else (0, [])
  if ¬company_news.isEmpty ∧ ¬insider_trades.isEmpty then
    let trade_dates := insider_trades.filterMap (fun t =>
      t.transaction_date.bind (fun d => if d = "" then none else some d))
    let news_dates := company_news.map (·.date)
    if trade_dates.any (fun td => news_dates.any (fun nd => nd ≠ "" && pyStrLt td nd)) then
      .error .nameError
    else
      let allDetails := d0 ++ d1
      .ok { score := score1,
            details := if allDetails.isEmpty then "No significant information asymmetry detected"
              else "; ".intercalate allDetails }
  else
    let allDetails := d0 ++ d1
    .ok { score := score1,
          details := if allDetails.isEmpty then "No significant information asymmetry detected"
            else "; ".intercalate allDetails }

/-- Keywords of `analyze_congressional_trading` (lines 447-452). -/
def congress_keywords : List String :=
  ["congress", "congressman", "congresswoman", "senator", "representative",
   "house member", "committee chair", "subcommittee", "pelosi", "schumer",
   "mcconnell", "committee", "caucus", "congressional trading", "disclosure",
   "financial disclosure", "stock act", "ethics filing"]

/-- Sector watch lists of `analyze_congressional_trading` (lines 488-494), in
dict insertion order. -/
def congress_heavy_sectors : List (String × List String) :=
  [("tech", ["AAPL", "MSFT", "GOOG", "GOOGL", "META", "AMZN", "NVDA"]),
   ("pharma", ["PFE", "JNJ", "MRK", "ABBV", "LLY"]),
   ("defense", ["LMT", "RTX", "NOC", "GD", "BA"]),
   ("energy", ["XOM", "CVX", "COP", "SLB", "EOG"]),
   ("finance", ["JPM", "BAC", "GS", "MS", "WFC"])]

/-- Historically high congressional trading tickers (line 503). -/
def high_trading_stocks : List String :=
  ["AAPL", "MSFT", "AMZN", "GOOGL", "TSLA", "NVDA", "PFE", "JNJ"]

/-- Embedding of `analyze_congressional_trading` (nancy_pelosi.py lines 436-511). -/
def analyze_congressional_trading (ticker : String) (insider_trades : List InsiderTrade)
    (company_news : List CompanyNews) : ScoreDetails :=
  let congressNews := company_news.filter (titleHasKeyword congress_keywords)
  let d0 := congressNews.map (fun n => "Congress-related trading news: " ++ n.title)
  let c := congressNews.length
  let (score1, d1) : ℚ × List String :=
    if c > 2 then (3, ["Significant congressional trading interest: " ++ toString c ++ " related items"])
    else if c > 0 then (1, ["Some congressional trading interest: " ++ toString c ++ " related items"])
    else (0, [])
  let (score2, d2) : ℚ × List String :=
    if insider_trades.length > 5 then
      let buys := (insider_trades.filter (fun t => 0 < t.transaction_shares)).length
      let sells := (insider_trades.filter (fun t => t.transaction_shares < 0)).length
      if 0 < buys + sells then
        let buyRatio : ℚ := (buys : ℚ) / ((buys : ℚ) + (sells : ℚ))
        if buyRatio > 7 / 10 then
          (3, ["Strong insider buying pattern: " ++ fmtPercent 0 buyRatio ++
            " buys - indicates positive information advantage"])
        else if buyRatio < 3 / 10 then
          (-2, ["Strong insider selling pattern: " ++ fmtPercent 0 (1 - buyRatio) ++
            " sells - indicates negative information advantage"])
        else (0, [])
      else (0, [])
    else (0, [])
  let (score3, d3) : ℚ × List String :=
    match congress_heavy_sectors.find? (fun p => p.2.contains ticker) with
    | some p => (1, ["Company in " ++ p.1 ++ " sector with high congressional trading activity"])
    | none => (0, [])
  let (score4, d4) : ℚ × List String :=
    if high_trading_stocks.contains ticker then
      (2, [ticker ++ " is among top stocks with historical congressional trading activity"])
    else (0, [])
  let allDetails := d0 ++ d1 ++ d2 ++ d3 ++ d4
  { score := score1 + score2 + score3 + score4,
    details := if allDetails.isEmpty then "No significant congressional trading patterns detected"
      else "; ".intercalate allDetails }

/-- Signal record `{signal, confidence, reasoning}` produced per (persona,
ticker) pair. -/
structure AgentSignal where
  signal : String
  confidence : ℚ
  reasoning : String
deriving Repr, DecidableEq

/-- Per-ticker body of `nancy_pelosi_agent` (lines 35-128): the five analyses,
the `0.2`-weighted total, and the threshold mapping to a categorical signal.
Market-cap and metrics fetches are omitted: the agent stores them but never
branches on them.  Any exception from an analysis propagates: the wrapper has
no handler. -/
def nancy_pelosi_ticker_analysis (ticker : String) (financial_line_items : List LineItem)
    (company_news : List CompanyNews) (insider_trades : List InsiderTrade) :
    Except PyErr (ℚ × String) := do
  let legislation := analyze_legislation_impact company_news ticker
  let gov := analyze_government_contracts financial_line_items company_news
  let policy ← analyze_policy_trends (some company_news) ticker
  let asymmetry ← analyze_information_asymmetry company_news insider_trades ticker
  let congressional := analyze_congressional_trading ticker insider_trades company_news
  let total_score := legislation.score * (1 / 5) + gov.score * (1 / 5) +
    policy.score * (1 / 5) + asymmetry.score * (1 / 5) + congressional.score * (1 / 5)
  let signal := if total_score ≥ 13 / 2 then "bullish"
    else if total_score ≤ 7 / 2 then "bearish" else "neutral"
  return (total_score, signal)

/-- Embedding of the `nancy_pelosi_agent` wrapper loop (lines 19-146): data
providers and the LLM are total functions per the external-interface contract;
an exception inside any per-ticker analysis propagates to the caller. -/
def nancy_pelosi_agent (tickers : List String)
    (lineItemsOf : String → List LineItem)
    (newsOf : String → List CompanyNews)
    (tradesOf : String → List InsiderTrade)
    (llm : String → AgentSignal) : Except PyErr (List (String × AgentSignal)) :=
  tickers.foldlM (fun acc ticker => do
    let _ ← nancy_pelosi_ticker_analysis ticker (lineItemsOf ticker) (newsOf ticker)
      (tradesOf ticker)
    return acc ++ [(ticker, llm ticker)]) []

/-! ## Ben Graham evaluators (`src/agents/ben_graham.py`)

The `metrics` argument is only ever tested for truthiness by these functions,
so its element type is a type parameter; both `metrics` and
`financial_line_items` are `Option (List _)` to distinguish Python `None`
from a concrete list (the guards `if not xs` treat both the same way). -/

/-- Python truthiness of an optional list: `None` and `[]` are falsy. -/
def optListFalsy {α : Type} : Option (List α) → Bool
  | none => true
  | some l => l.isEmpty

/-- Embedding of `analyze_earnings_stability` (ben_graham.py lines 94-135). -/
def analyze_earnings_stability {α : Type} (metrics : Option (List α))
    (financial_line_items : Option (List LineItem)) : ScoreDetails :=
  if optListFalsy metrics || optListFalsy financial_line_items then
    { score := 0, details := "Insufficient data for earnings stability analysis" }
  else
    let items := financial_line_items.getD []
    let eps_vals := items.filterMap (·.earnings_per_share)
    if eps_vals.length < 2 then
      { score := 0, details := "Not enough multi-year EPS data." }
    else
      let positive_eps_years := (eps_vals.filter (0 < ·)).length
      let total_eps_years := eps_vals.length
      let (s1, d1) : ℚ × String :=
        if positive_eps_years = total_eps_years then
          (3, "EPS was positive in all available periods.")
        else if (positive_eps_years : ℚ) ≥ (total_eps_years : ℚ) * (8 / 10) then
          (2, "EPS was positive in most periods.")
        else (0, "EPS was negative in multiple periods.")
      -- `getD 0` below is unreachable filler: the branch guarantees length ≥ 2.
      let (s2, d2) : ℚ × String :=
        if eps_vals.getLast?.getD 0 > eps_vals.head?.getD 0 then
          (1, "EPS grew from earliest to latest period.")
        else (0, "EPS did not grow from earliest to latest period.")
      { score := s1 + s2, details := "; ".intercalate [d1, d2] }

/-- Embedding of `analyze_financial_strength` (ben_graham.py lines 138-220);
note the two early returns when `total_assets` or `total_liabilities` is
missing on the latest item. -/
def analyze_financial_strength (financial_line_items : Option (List LineItem)) :
    ScoreDetails :=
  match financial_line_items with
  | none => { score := 0, details := "Insufficient data for financial strength analysis" }
  | some [] => { score := 0, details := "Insufficient data for financial strength analysis" }
  | some (latest_item :: restItems) =>
    let items := latest_item :: restItems
    let current_assets := latest_item.current_assets.getD 0
    let current_liabilities := latest_item.current_liabilities.getD 0
    let (s1, d1) : ℚ × List String :=
      if current_assets ≠ 0 ∧ current_liabilities ≠ 0 then
        let current_ratio := current_assets / current_liabilities
        if current_ratio ≥ 2 then
          (2, ["Strong current ratio: " ++ fmtFixed 2 current_ratio])
        else if current_ratio ≥ 3 / 2 then
          (1, ["Acceptable current ratio: " ++ fmtFixed 2 current_ratio])
        else (0, ["Weak current ratio: " ++ fmtFixed 2 current_ratio])
      else (0, ["Current ratio could not be calculated (missing data)"])
    match latest_item.total_assets with
    | none =>
      { score := s1, details := "; ".intercalate
          (d1 ++ ["Cannot compute debt ratio (missing total_assets)."]) }
    | some total_assets =>
      match latest_item.total_liabilities with
      | none =>
        { score := s1, details := "; ".intercalate
            (d1 ++ ["Cannot compute debt ratio (missing total_liabilities)."]) }
      | some total_liabilities =>
        let (s2, d2) : ℚ × List String :=
          if 0 < total_assets then
            let debt_ratio := total_liabilities / total_assets
            if debt_ratio < 1 / 2 then
              (2, ["Debt ratio = " ++ fmtFixed 2 debt_ratio ++ ", under 0.50 (conservative)."])
            else if debt_ratio < 8 / 10 then
              (1, ["Debt ratio = " ++ fmtFixed 2 debt_ratio ++
                ", somewhat high but could be acceptable."])
            else (0, ["Debt ratio = " ++ fmtFixed 2 debt_ratio ++
              ", quite high by Graham standards."])
          else (0, ["Cannot compute debt ratio (missing total_assets)."])
        let div_periods := items.filterMap (·.dividends_and_other_cash_distributions)
        let (s3, d3) : ℚ × List String :=
          if ¬div_periods.isEmpty then
            let div_paid_years := (div_periods.filter (· < 0)).length
            if 0 < div_paid_years then
              if div_paid_years ≥ div_periods.length / 2 + 1 then
                (1, ["Company paid dividends in the majority of the reported years."])
              else (0, ["Company has some dividend payments, but not most years."])
            else (0, ["Company did not pay dividends in these periods."])
          else (0, ["No dividend data available to assess payout consistency."])
        { score := s1 + s2 + s3, details := "; ".intercalate (d1 ++ d2 ++ d3) }

/-- Embedding of `analyze_valuation_graham` (ben_graham.py lines 223-311).
The `math.sqrt` of the Graham number is compared only against positive
quantities, so the two margin-of-safety branch conditions are embedded as the
equivalent comparisons of squares (`margin > 0.5 ↔ graham² > 2.25·price²`,
`margin > 0.2 ↔ graham² > 1.44·price²`); the square root rendered inside the
detail strings uses `sqrtApprox`. -/
def analyze_valuation_graham (financial_line_items : Option (List LineItem))
    (market_cap : Option ℚ) : ScoreDetails :=
  match financial_line_items, market_cap with
  | none, _ => { score := 0, details := "Insufficient data for Graham valuation" }
  | some [], _ => { score := 0, details := "Insufficient data for Graham valuation" }
  | some _, none => { score := 0, details := "Insufficient data for Graham valuation" }
  | some (latest :: _), some mc =>
    let current_assets := latest.current_assets.getD 0
    let total_liabilities := latest.total_liabilities.getD 0
    let book_value_ps := latest.book_value_per_share.getD 0
    let eps := latest.earnings_per_share.getD 0
    let shares_outstanding := latest.outstanding_shares.getD 0
    let net_current_asset_value := current_assets - total_liabilities
    let (s1, d1) : ℚ × List String :=
      if 0 < net_current_asset_value ∧ 0 < shares_outstanding then
        let ncav_ps := net_current_asset_value / shares_outstanding
        let price_per_share := mc / shares_outstanding
        let base := ["Net Current Asset Value = " ++ fmtComma2 net_current_asset_value,
          "NCAV Per Share = " ++ fmtComma2 ncav_ps,
          "Price Per Share = " ++ fmtComma2 price_per_share]
        if net_current_asset_value > mc then
          (4, base ++ ["Net-Net: NCAV > Market Cap (classic Graham deep value)."])
        else if ncav_ps ≥ price_per_share * (67 / 100) then
          (2, base ++ ["NCAV Per Share >= 2/3 of Price Per Share (moderate net-net discount)."])
        else (0, base)
      else (0, ["NCAV not exceeding market cap or insufficient data for net-net approach."])
    let (grahamSq, d2) : Option ℚ × List String :=
      if 0 < eps ∧ 0 < book_value_ps then
        let gsq := (45 / 2) * eps * book_value_ps
        (some gsq, ["Graham Number = " ++ fmtFixed 2 (sqrtApprox gsq)])
      else (none, ["Unable to compute Graham Number (EPS or Book Value missing/<=0)."])
    let (s3, d3) : ℚ × List String :=
      match grahamSq with
      | some gsq =>
        if 0 < shares_outstanding then
          let current_price := mc / shares_outstanding
          if 0 < current_price then
            let marginDetail := "Margin of Safety (Graham Number) = " ++
              fmtPercent 2 ((sqrtApprox gsq - current_price) / current_price)
            if gsq > (9 / 4) * current_price ^ 2 then
              (3, [marginDetail, "Price is well below Graham Number (>=50% margin)."])
            else if gsq > (36 / 25) * current_price ^ 2 then
              (1, [marginDetail, "Some margin of safety relative to Graham Number."])
            else
              (0, [marginDetail, "Price close to or above Graham Number, low margin of safety."])
          else
            (0, ["Current price is zero or invalid; can" ++ apos ++ "t compute margin of safety."])
        else (0, [])
      | none => (0, [])
    { score := s1 + s3, details := "; ".intercalate (d1 ++ d2 ++ d3) }

/-- Aggregate score of `ben_graham_agent` (ben_graham.py line 56): the sum of
the three evaluator scores, whose documented ceiling is
`max_possible_score = 15` (line 57). -/
def ben_graham_total_score {α : Type} (metrics : Option (List α))
    (financial_line_items : Option (List LineItem)) (market_cap : Option ℚ) : ℚ :=
  (analyze_earnings_stability metrics financial_line_items).score +
  (analyze_financial_strength financial_line_items).score +
  (analyze_valuation_graham financial_line_items market_cap).score

/-! ## JSON values and `json.loads` (used by `src/round_table/engine.py`)

The parser is strict in the way Python `json.loads` is: whole-input match,
no leading zeros, no unknown escapes, no raw control characters in strings.
Python additionally accepts the non-finite constants `NaN`/`Infinity`, which
fall outside the rational model and are not produced by any claim input. -/

/-- JSON values; objects are insertion-ordered association lists with unique
keys (duplicates overwrite, as in a Python dict). -/
inductive Json where
  | null
  | bool (b : Bool)
  | num (q : ℚ)
  | str (s : String)
  | arr (elements : List Json)
  | obj (fields : List (String × Json))
deriving Inhabited

/-- JSON whitespace. -/
def jsonWsChar (c : Char) : Bool := c = ' ' || c = '\t' || c = '\n' || c = '\r'

/-- Drop leading JSON whitespace. -/
def skipJsonWs : List Char → List Char
  | [] => []
  | c :: cs => if jsonWsChar c then skipJsonWs cs else c :: cs

/-- Hexadecimal digit value. -/
def hexDigitVal (c : Char) : Option ℕ :=
  if '0' ≤ c ∧ c ≤ '9' then some (c.toNat - 48)
  else if 'a' ≤ c ∧ c ≤ 'f' then some (c.toNat - 87)
  else if 'A' ≤ c ∧ c ≤ 'F' then some (c.toNat - 55)
  else none

/-- Decimal digit test. -/
def isDigitChar (c : Char) : Bool := '0' ≤ c ∧ c ≤ '9'

/-- Numeric value of a digit string. -/
def natOfDigits (ds : List Char) : ℕ := ds.foldl (fun n c => n * 10 + (c.toNat - 48)) 0

/-- Parse the body of a JSON string after the opening quote; returns the
decoded content and the rest after the closing quote.  Fuel is seeded with
the input length. -/
def parseJsonString : ℕ → List Char → Option (List Char × List Char)
  | 0, _ => none
  | _, [] => none
  | fuel + 1, c :: cs =>
    if c = '"' then some ([], cs)
    else if c = '\\' then
      match cs with
      | [] => none
      | e :: cs2 =>
        if e = '"' then (parseJsonString fuel cs2).map (fun p => ('"' :: p.1, p.2))
        else if e = '\\' then (parseJsonString fuel cs2).map (fun p => ('\\' :: p.1, p.2))
        else if e = '/' then (parseJsonString fuel cs2).map (fun p => ('/' :: p.1, p.2))
        else if e = 'b' then (parseJsonString fuel cs2).map (fun p => (Char.ofNat 8 :: p.1, p.2))
        else if e = 'f' then (parseJsonString fuel cs2).map (fun p => (Char.ofNat 12 :: p.1, p.2))
        else if e = 'n' then (parseJsonString fuel cs2).map (fun p => ('\n' :: p.1, p.2))
        else if e = 'r' then (parseJsonString fuel cs2).map (fun p => ('\r' :: p.1, p.2))
        else if e = 't' then (parseJsonString fuel cs2).map (fun p => ('\t' :: p.1, p.2))
        else if e = 'u' then
          match cs2 with
          | h1 :: h2 :: h3 :: h4 :: cs3 =>
            match hexDigitVal h1, hexDigitVal h2, hexDigitVal h3, hexDigitVal h4 with
            | some a, some b, some c3, some d =>
              (parseJsonString fuel cs3).map
                (fun p => (Char.ofNat (((a * 16 + b) * 16 + c3) * 16 + d) :: p.1, p.2))
            | _, _, _, _ => none
          | _ => none
        else none
    else if c.toNat < 32 then none
    else (parseJsonString fuel cs).map (fun p => (c :: p.1, p.2))

/-- Parse an optional JSON fraction part (`.` followed by one or more digits). -/
def parseJsonFrac : List Char → Option (List Char × List Char)
  | '.' :: rest =>
    let fd := rest.takeWhile isDigitChar
    if fd.isEmpty then none else some (fd, rest.drop fd.length)
  | cs => some ([], cs)

/-- Parse an optional exponent part (`e`/`E`, optional sign, digits). -/
def parseExponent : List Char → Option (ℤ × List Char)
  | [] => some (0, [])
  | c :: rest =>
    if c = 'e' ∨ c = 'E' then
      let (esign, rest2) : Bool × List Char :=
        match rest with
        | '+' :: r => (false, r)
        | '-' :: r => (true, r)
        | r => (false, r)
      let ed := rest2.takeWhile isDigitChar
      if ed.isEmpty then none
      else some ((if esign then -(natOfDigits ed : ℤ) else (natOfDigits ed : ℤ)),
        rest2.drop ed.length)
    else some (0, c :: rest)

/-- Parse a JSON number at the head of the input. -/
def parseJsonNumber (cs : List Char) : Option (ℚ × List Char) :=
  let (neg, cs1) : Bool × List Char :=
    match cs with
    | '-' :: rest => (true, rest)
    | _ => (false, cs)
  let intDigits := cs1.takeWhile isDigitChar
  if intDigits.isEmpty then none
  else if intDigits.length > 1 ∧ intDigits.head? = some '0' then none
  else
    match parseJsonFrac (cs1.drop intDigits.length) with
    | none => none
    | some (fracDigits, cs2) =>
      match parseExponent cs2 with
      | none => none
      | some (e, cs3) =>
        -- The fraction-free, exponent-free case is split out so that integer
        -- literals evaluate to plain casts; the value is the same.
        let v : ℚ :=
          if fracDigits.isEmpty ∧ e = 0 then (natOfDigits intDigits : ℚ)
          else ((natOfDigits (intDigits ++ fracDigits) : ℚ) / 10 ^ fracDigits.length) *
            (10 : ℚ) ^ e
        some ((if neg then -v else v), cs3)

/-- State of the recursive-descent JSON parser: parsing a value, the members
of an object, or the elements of an array. -/
inductive ParseTask where
  | value (cs : List Char)
  | members (cs : List Char) (acc : List (String × Json))
  | elems (cs : List Char) (acc : List Json)

/-- Fuel-indexed recursive-descent JSON parser (structural on the fuel, so it
evaluates by kernel reduction).  The fuel only bounds the recursion depth and
is seeded past the input length. -/
def parseJsonAux : ℕ → ParseTask → Option (Json × List Char)
  | 0, _ => none
  | fuel + 1, .value cs =>
    match skipJsonWs cs with
    | [] => none
    | c :: rest =>
      if c = '\x7b' then
        match skipJsonWs rest with
        | '\x7d' :: rest2 => some (.obj [], rest2)
        | rest2 => parseJsonAux fuel (.members rest2 [])
      else if c = '[' then
        match skipJsonWs rest with
        | ']' :: rest2 => some (.arr [], rest2)
        | rest2 => parseJsonAux fuel (.elems rest2 [])
      else if c = '"' then
        (parseJsonString (rest.length + 1) rest).map (fun p => (.str (String.mk p.1), p.2))
      else if c = 't' then
        if ['r', 'u', 'e'].isPrefixOf rest then some (.bool true, rest.drop 3) else none
      else if c = 'f' then
        if ['a', 'l', 's', 'e'].isPrefixOf rest then some (.bool false, rest.drop 4) else none
      else if c = 'n' then
        if ['u', 'l', 'l'].isPrefixOf rest then some (.null, rest.drop 3) else none
      else
        (parseJsonNumber (c :: rest)).map (fun p => (.num p.1, p.2))
  | fuel + 1, .members cs acc =>
    match cs with
    | '"' :: rest =>
      match parseJsonString (rest.length + 1) rest with
      | none => none
      | some (key, rest2) =>
        match skipJsonWs rest2 with
        | ':' :: rest3 =>
          match parseJsonAux fuel (.value rest3) with
          | none => none
          | some (v, rest4) =>
            let acc2 := aset (String.mk key) v acc
            match skipJsonWs rest4 with
            | ',' :: rest5 => parseJsonAux fuel (.members (skipJsonWs rest5) acc2)
            | '\x7d' :: rest5 => some (.obj acc2, rest5)
            | _ => none
        | _ => none
    | _ => none
  | fuel + 1, .elems cs acc =>
    match parseJsonAux fuel (.value cs) with
    | none => none
    | some (v, rest) =>
      match skipJsonWs rest with
      | ',' :: rest2 => parseJsonAux fuel (.elems rest2 (acc ++ [v]))
      | ']' :: rest2 => some (.arr (acc ++ [v]), rest2)
      | _ => none

/-- Python `json.loads`: one value, whole input consumed up to whitespace. -/
def json_loads (s : String) : Option Json :=
  match parseJsonAux (2 * s.length + 8) (.value s.data) with
  | some (j, rest) => if (skipJsonWs rest).isEmpty then some j else none
  | none => none

/-! ## Models of the three regex extraction passes of `generate_final_analysis` -/

/-- The backtick character (written by code point to keep source plain). -/
def backtickChar : Char := Char.ofNat 96

/-- The single-quote character. -/
def singleQuoteChar : Char := Char.ofNat 39

/-- Python regex `\s` character class. -/
def pyWsChar (c : Char) : Bool :=
  c = ' ' || c = '\t' || c = '\n' || c = '\r' || c = '\x0b' || c = '\x0c'

/-- Strip leading and trailing Python whitespace. -/
def trimPyWs (cs : List Char) : List Char :=
  ((cs.dropWhile pyWsChar).reverse.dropWhile pyWsChar).reverse

/-- Split the input at the first occurrence of `needle`; returns the parts
before and after it.  Fuel is seeded with the input length. -/
def splitFirstSub (needle : List Char) : ℕ → List Char → Option (List Char × List Char)
  | _, [] => if needle.isEmpty then some ([], []) else none
  | 0, _ => none
  | fuel + 1, c :: cs =>
    if needle.isPrefixOf (c :: cs) then some ([], (c :: cs).drop needle.length)
    else (splitFirstSub needle fuel cs).map (fun p => (c :: p.1, p.2))

/-- A triple-backtick code fence. -/
def fenceToken : List Char := [backtickChar, backtickChar, backtickChar]

/-- Worker for `findCodeBlocks`. -/
def findCodeBlocksAux : ℕ → List Char → List String
  | 0, _ => []
  | fuel + 1, cs =>
    match splitFirstSub fenceToken cs.length cs with
    | none => []
    | some (_, afterOpen) =>
      let afterTag := if ['j', 's', 'o', 'n'].isPrefixOf afterOpen then afterOpen.drop 4
        else afterOpen
      match splitFirstSub fenceToken afterTag.length afterTag with
      | none => []
      | some (content, rest) => String.mk (trimPyWs content) :: findCodeBlocksAux fuel rest

/-- Model of `re.findall` with pattern  triple-backtick `(?:json)?\s*([\s\S]*?)\s*`
triple-backtick  (engine.py line 899): successive fenced blocks with the
optional `json` tag dropped and surrounding whitespace trimmed (the greedy
`\s*` before the lazy group and the lazy group ending before `\s*` together
trim the captured content). -/
def findCodeBlocks (s : String) : List String := findCodeBlocksAux (s.length + 1) s.data

/-- Worker for `findBraceMatches`. -/
def findBraceMatchesAux : ℕ → List Char → List String
  | 0, _ => []
  | fuel + 1, cs =>
    match splitFirstSub ['\x7b'] cs.length cs with
    | none => []
    | some (_, afterOpen) =>
      match splitFirstSub ['\x7d'] afterOpen.length afterOpen with
      | none => []
      | some (content, rest) =>
        String.mk ('\x7b' :: (content ++ ['\x7d'])) :: findBraceMatchesAux fuel rest

/-- Model of `re.findall` with pattern `\{[\s\S]*?\}` (engine.py line 914):
each match runs from an opening brace to the nearest following closing brace
(lazy, not balanced), scanning resumes after the match. -/
def findBraceMatches (s : String) : List String := findBraceMatchesAux (s.length + 1) s.data

/-- The `match.replace("'", '"')` normalization (engine.py line 921). -/
def replaceSingleQuotes (s : String) : String :=
  ⟨s.data.map (fun c => if c = singleQuoteChar then '"' else c)⟩

/-- Attempt, at a fixed position, the regex
`"key"\s*:\s*("([^"]*)"|(\d+(?:\.\d+)?))` (engine.py line 936): the quoted
alternative captures the string value, the numeric alternative is converted
with `float`. -/
def matchKeyValueAt (keyPattern : List Char) (cs : List Char) : Option Json :=
  if keyPattern.isPrefixOf cs then
    match (cs.drop keyPattern.length).dropWhile pyWsChar with
    | ':' :: rest2 =>
      let v := rest2.dropWhile pyWsChar
      match v with
      | '"' :: vs =>
        let content := vs.takeWhile (· ≠ '"')
        if (vs.drop content.length).isEmpty then none
        else some (.str (String.mk content))
      | _ =>
        let ds := v.takeWhile isDigitChar
        if ds.isEmpty then none
        else
          match v.drop ds.length with
          | '.' :: rest3 =>
            let fs := rest3.takeWhile isDigitChar
            if fs.isEmpty then some (.num (natOfDigits ds : ℚ))
            else some (.num ((natOfDigits (ds ++ fs) : ℚ) / 10 ^ fs.length))
          | _ => some (.num (natOfDigits ds : ℚ))
    | _ => none
  else none

/-- Worker for `searchKeyValue`: leftmost match position wins, as `re.search`. -/
def searchKeyAux (keyPattern : List Char) : ℕ → List Char → Option Json
  | 0, _ => none
  | fuel + 1, cs =>
    match matchKeyValueAt keyPattern cs with
    | some v => some v
    | none =>
      match cs with
      | [] => none
      | _ :: t => searchKeyAux keyPattern fuel t

/-- Model of `re.search` for the per-key extraction pattern of APPROACH 3. -/
def searchKeyValue (key : String) (text : String) : Option Json :=
  searchKeyAux ('"' :: key.data ++ ['"']) (text.length + 1) text.data

/-! ## Signal maps and the signal-vote fallback (`generate_fallback_analysis`) -/

/-- One persona's stored signal for one ticker, as read back from the shared
signal map; every field is optional because the source reads each with
`dict.get` and a default. -/
structure SignalData where
  signal : Option String := none
  confidence : Option ℚ := none
  reasoning : Option String := none
deriving Repr, DecidableEq

/-- A ticker's signal map: persona identifier to signal record, insertion
ordered. -/
abbrev TickerSignals := List (String × SignalData)

/-- The three vote buckets. -/
inductive Bucket where
  | bullish
  | bearish
  | neutral
deriving DecidableEq, Repr

/-- Rendering of a bucket back to its dict key. -/
def Bucket.str : Bucket → String
  | .bullish => "bullish"
  | .bearish => "bearish"
  | .neutral => "neutral"

/-- Bucket of one signal record: `signal_data.get("signal", "neutral").lower()`
with any value outside the three keys defaulted to neutral (engine.py
lines 997-999). -/
def classifySignal (d : SignalData) : Bucket :=
  let s := pyLower (d.signal.getD "neutral")
  if s = "bullish" then .bullish else if s = "bearish" then .bearish else .neutral

/-- Vote count of a bucket (`signal_counts`). -/
def bucketCount (sigs : TickerSignals) (b : Bucket) : ℕ :=
  (sigs.filter (fun p => classifySignal p.2 = b)).length

/-- Running confidence sum of a bucket (`total_confidence`), with the
`get("confidence", 50)` default. -/
def bucketConfidence (sigs : TickerSignals) (b : Bucket) : ℚ :=
  (sigs.filter (fun p => classifySignal p.2 = b)).foldl
    (fun s p => s + p.2.confidence.getD 50) 0

/-- Reasoning strings collected per bucket (`reasonings`): present keys whose
string is longer than 10 characters, prefixed by the persona name. -/
def bucketReasonings (sigs : TickerSignals) (b : Bucket) : List String :=
  sigs.filterMap (fun p =>
    match p.2.reasoning with
    | some r =>
      if classifySignal p.2 = b ∧ r.length > 10 then some (p.1 ++ ": " ++ r) else none
    | none => none)

/-- Python `max(xs, key=f)`: the first element with maximal key. -/
def pyMaxBy {α β : Type} [LinearOrder β] (f : α → β) (x : α) (xs : List α) : α :=
  xs.foldl (fun best y => if f best < f y then y else best) x

/-- Average confidence with the `max(1, count)` guard used by the tie-break
(engine.py line 1014). -/
def bucketAvgConfidence (sigs : TickerSignals) (b : Bucket) : ℚ :=
  bucketConfidence sigs b / (max 1 (bucketCount sigs b) : ℕ)

/-- The bucket order of the `signal_counts` dict. -/
def bucketOrder : List Bucket := [.bullish, .bearish, .neutral]

/-- Winning bucket of `generate_fallback_analysis`: most votes first
(`max` keeps the earliest bucket on ties), then — only when two or more
buckets tie on the maximal count — the tied bucket with the highest average
confidence (again earliest on ties). -/
def fallbackWinner (sigs : TickerSignals) : Bucket :=
  let overall0 := pyMaxBy (fun b => bucketCount sigs b) Bucket.bullish [Bucket.bearish, Bucket.neutral]
  let tied := bucketOrder.filter (fun b => bucketCount sigs b = bucketCount sigs overall0)
  if 1 < tied.length then
    match tied with
    | [] => overall0
    | t :: ts => pyMaxBy (bucketAvgConfidence sigs) t ts
  else overall0

/-- A Python dict with JSON-typed values. -/
abbrev PyDict := List (String × Json)

/-- Embedding of `generate_fallback_analysis` (engine.py lines 988-1047). -/
def generate_fallback_analysis (ticker_signals : TickerSignals) : PyDict :=
  let overall := fallbackWinner ticker_signals
  let cnt := bucketCount ticker_signals overall
  let overall_confidence : ℚ :=
    if 0 < cnt then bucketConfidence ticker_signals overall / cnt else 50
  let overall_reasoning :=
    match bucketReasonings ticker_signals overall with
    | r :: _ => "Based on multiple analysts: " ++ r
    | [] => "The majority of analysts (" ++ toString cnt ++ ") had a " ++ overall.str ++
        " outlook."
  let totalVotes := bucketCount ticker_signals .bullish + bucketCount ticker_signals .bearish +
    bucketCount ticker_signals .neutral
  let discussion_summary := "The analysis included " ++ toString totalVotes ++
    " perspectives: " ++ toString (bucketCount ticker_signals .bullish) ++ " bullish, " ++
    toString (bucketCount ticker_signals .bearish) ++ " bearish, and " ++
    toString (bucketCount ticker_signals .neutral) ++ " neutral."
  let consensus_view := "The majority view was " ++ overall.str ++
    " with an average confidence of " ++ fmtFixed 1 overall_confidence ++ "."
  let dissenting :=
    (bucketOrder.filter (fun s => s ≠ overall ∧ 0 < bucketCount ticker_signals s)).map Bucket.str
  let dissenting_opinions :=
    if ¬dissenting.isEmpty then
      "Dissenting views included " ++ ", ".intercalate dissenting ++ " perspectives."
    else "There were no significant dissenting opinions."
  [("signal", .str overall.str), ("confidence", .num overall_confidence),
   ("reasoning", .str overall_reasoning), ("discussion_summary", .str discussion_summary),
   ("consensus_view", .str consensus_view), ("dissenting_opinions", .str dissenting_opinions)]

/-! ## The final-verdict parsing pipeline (`generate_final_analysis`) -/

/-- The six required keys (engine.py lines 931 and 960-961). -/
def required_keys : List String :=
  ["signal", "confidence", "reasoning", "discussion_summary", "consensus_view",
   "dissenting_opinions"]

/-- The fixed `default_analysis` dict (engine.py lines 837-844). -/
def default_analysis : PyDict :=
  [("signal", .str "neutral"), ("confidence", .num 50),
   ("reasoning", .str "Balanced mix of positive and negative factors with no clear consensus."),
   ("discussion_summary",
    .str "The discussion covered various aspects of the company without a clear resolution."),
   ("consensus_view", .str "No strong consensus emerged from the discussion."),
   ("dissenting_opinions",
    .str "Various perspectives were presented with different analytical frameworks.")]

/-- One step of the missing-key backfill: a key already present is left
alone, a missing key is appended at the end with its default value, as in
Python. -/
def fillStep (d : PyDict) (k : String) : PyDict :=
  if (alookup k d).isSome then d
  else d ++ [(k, (alookup k default_analysis).getD .null)]

/-- Backfill of missing required keys with the default values: used both by
APPROACH 3 (lines 946-949) and by the validation pass (lines 963-966). -/
def fillMissingKeys (d : PyDict) : PyDict :=
  required_keys.foldl fillStep d

/-- First successful application of `f` along a list (the source loops over
regex matches taking the first parse that succeeds). -/
def firstSuccess {α β : Type} (f : α → Option β) : List α → Option β
  | [] => none
  | x :: xs =>
    match f x with
    | some y => some y
    | none => firstSuccess f xs

/-- Python `float()` applied to a string: optional surrounding whitespace and
sign, digits with optional fraction and exponent.  The non-finite spellings
(`inf`, `nan`) and digit underscores fall outside the rational model. -/
def pyFloatOfString (s : String) : Option ℚ :=
  let cs := trimPyWs s.data
  let (neg, cs1) : Bool × List Char :=
    match cs with
    | '-' :: r => (true, r)
    | '+' :: r => (false, r)
    | r => (false, r)
  let ip := cs1.takeWhile isDigitChar
  let cs2 := cs1.drop ip.length
  let (fp, cs3) : List Char × List Char :=
    match cs2 with
    | '.' :: r => (r.takeWhile isDigitChar, r.drop (r.takeWhile isDigitChar).length)
    | r => ([], r)
  if ip.isEmpty ∧ fp.isEmpty then none
  else
    match parseExponent cs3 with
    | none => none
    | some (e, rest) =>
      if rest.isEmpty then
        let v := ((natOfDigits (ip ++ fp) : ℚ) / 10 ^ fp.length) * (10 : ℚ) ^ e
        some (if neg then -v else v)
      else none

/-- Python `float(x)` on a JSON value: numbers pass through, booleans coerce
to 0/1, strings are parsed; everything else raises (modelled as `none`,
which the caller replaces by the default, exactly as the `try/except` at
engine.py lines 972-976). -/
def floatCoerce : Json → Option ℚ
  | .num q => some q
  | .bool b => some (if b then 1 else 0)
  | .str s => pyFloatOfString s
  | _ => none

/-- The valid signal enumeration (engine.py line 969). -/
def validSignalStrings : List String := ["bullish", "bearish", "neutral"]

/-- APPROACHES 1-3 of `generate_final_analysis` (engine.py lines 897-957):
first parsable fenced code block, else first parsable brace-delimited
substring after single-quote normalization, else the per-key regex
extraction backfilled from the defaults, else the default dict itself. -/
def selectAnalysisJson (response_text : String) : Json :=
  match firstSuccess json_loads (findCodeBlocks response_text) with
  | some j => j
  | none =>
    match firstSuccess (fun m => json_loads (replaceSingleQuotes m))
        (findBraceMatches response_text) with
    | some j => j
    | none =>
      match required_keys.filterMap
          (fun k => (searchKeyValue k response_text).map ((k, ·))) with
      | [] => Json.obj default_analysis
      | extracted => Json.obj (fillMissingKeys extracted)

/-- Validation pass of `generate_final_analysis` (engine.py lines 959-978):
backfill missing keys, replace an invalid signal by the default, coerce the
confidence to a number.  A non-dict `analysis_json` makes the membership
test or the item assignment raise `TypeError`, which the enclosing handler
(line 980) turns into the signal-vote fallback. -/
def validateAnalysisJson (j : Json) (ticker_signals : TickerSignals) : PyDict :=
  match j with
  | .obj fields =>
    let d1 := fillMissingKeys fields
    let sigStr :=
      match alookup "signal" d1 with
      | some (.str s) => if validSignalStrings.contains s then s else "neutral"
      | _ => "neutral"
    let d2 := aset "signal" (.str sigStr) d1
    let conf : ℚ :=
      match alookup "confidence" d2 with
      | some v => (floatCoerce v).getD 50
      | none => 50
    aset "confidence" (.num conf) d2
  | _ => generate_fallback_analysis ticker_signals

/-- Outcome of one raw `llm.invoke` attempt inside `generate_final_analysis`:
a response text, a rate-limit error (the message contains "429" or
"RESOURCE_EXHAUSTED"), or any other exception. -/
inductive LLMCallOutcome where
  | ok (response_text : String)
  | rateLimited
  | otherFailure
deriving Repr, DecidableEq

/-- The retry loop of `generate_final_analysis` (engine.py lines 866-895):
`max_retries = 5` attempts indexed 0-4; a rate-limit error at attempt `k < 4`
sleeps `2 * 2^k` seconds and retries, any other error — or a rate-limit error
on the final attempt — abandons the call.  Returns the performed sleeps and
the response text when some attempt succeeded. -/
def retryAux (llmCall : ℕ → LLMCallOutcome) : ℕ → ℕ → List ℕ × Option String
  | _, 0 => ([], none)
  | k, fuel + 1 =>
    match llmCall k with
    | .ok t => ([], some t)
    | .rateLimited =>
      if k < 4 then
        let r := retryAux llmCall (k + 1) fuel
        (2 * 2 ^ k :: r.1, r.2)
      else ([], none)
    | .otherFailure => ([], none)

/-- Embedding of `generate_final_analysis` (engine.py lines 810-986): a failed
call yields the signal-vote fallback, a successful call runs the parsing
pipeline and validation. -/
def generate_final_analysis (llmCall : ℕ → LLMCallOutcome)
    (ticker_signals : TickerSignals) : PyDict :=
  match (retryAux llmCall 0 5).2 with
  | some response_text => validateAnalysisJson (selectAnalysisJson response_text) ticker_signals
  | none => generate_fallback_analysis ticker_signals

/-- The sequence of backoff sleeps performed by `generate_final_analysis`. -/
def final_analysis_sleeps (llmCall : ℕ → LLMCallOutcome) : List ℕ :=
  (retryAux llmCall 0 5).1

/-! ## Personas and primary-debater selection (`src/round_table/engine.py`) -/

/-- The `AnalystPersona` model (engine.py lines 21-26). -/
structure AnalystPersona where
  name : String
  style : String := ""
  background : String := ""
  biases : String := ""
  initial_position : String := ""
deriving Repr, DecidableEq

/-- The static persona registry of `setup_analysts` (engine.py lines 262-329),
keyed by agent identifier, in dict insertion order. -/
def persona_definitions : List (String × AnalystPersona) :=
  [("warren_buffett_agent",
    { name := "Warren Buffett",
      style := "Patient, folksy but incisive, focused on business fundamentals and long-term value",
      background := "Value investor, Berkshire Hathaway CEO, focused on business quality and management",
      biases := "Prefers simple businesses with strong competitive advantages and long-term growth potential" }),
   ("charlie_munger_agent",
    { name := "Charlie Munger",
      style := "Blunt, no-nonsense, critical of foolishness, invokes mental models",
      background := "Vice Chairman of Berkshire Hathaway, emphasis on rationality and psychology",
      biases := "Skeptical of conventional wisdom, aversion to complexity" }),
   ("ben_graham_agent",
    { name := "Ben Graham",
      style := "Conservative, risk-averse, methodical, mathematical",
      background := "Father of value investing, focuses on margin of safety and tangible assets",
      biases := "Prefers stocks trading below intrinsic value with a margin of safety" }),
   ("cathie_wood_agent",
    { name := "Cathie Wood",
      style := "Bold, optimistic about disruptive innovation, future-focused",
      background := "ARK Invest founder, focuses on disruptive innovation and technology",
      biases := "Favors high-growth technology companies with disruptive potential" }),
   ("bill_ackman_agent",
    { name := "Bill Ackman",
      style := "Forceful, activist mindset, confident, pushes for concrete action",
      background := "Pershing Square founder, activist investor, concentrated portfolio",
      biases := "Prefers companies with potential for operational improvements or corporate actions" }),
   ("nancy_pelosi_agent",
    { name := "Nancy Pelosi",
      style := "Political insider, pragmatic, calm, policy-focused",
      background := "Political leader with insight into regulatory and policy developments",
      biases := "Attuned to companies that benefit from government policy and spending" }),
   ("technical_analyst_agent",
    { name := "Technical Analyst",
      style := "Chart-focused, pattern-oriented, dismissive of fundamentals when trends are clear",
      background := "Professional technical analyst specializing in price patterns and momentum",
      biases := "Believes price action and chart patterns predict future movements" }),
   ("fundamentals_agent",
    { name := "Fundamental Analyst",
      style := "By-the-numbers, methodical, skeptical of hype",
      background := "Specializes in financial statement analysis and business valuation",
      biases := "Focuses primarily on financial metrics and quantitative measures" }),
   ("sentiment_agent",
    { name := "Sentiment Analyst",
      style := "Attuned to market psychology and news flow",
      background := "Expert in market sentiment, social media trends, and investor psychology",
      biases := "Believes market perception often trumps fundamentals in the short term" }),
   ("valuation_agent",
    { name := "Valuation Analyst",
      style := "Focused on price vs. value, multiple-based comparisons",
      background := "Specializes in valuation methodologies and comparative analysis",
      biases := "Emphasizes relative and absolute valuation metrics" }),
   ("wsb_agent",
    { name := "WSB",
      style := "Irreverent, momentum-driven, contrarian, uses distinctive slang",
      background := "Retail trader focused on high-conviction momentum plays and contrarian bets",
      biases := "Favors high short interest stocks, options leverage, and unconventional catalysts" })]

/-- Embedding of `setup_analysts` (engine.py lines 258-341): one persona per
signal-map key found in the registry, in signal-map order.  (The
`endswith("_agent")` branch at lines 335-336 assigns the key to itself and is
a no-op.) -/
def setup_analysts (ticker_signals : TickerSignals) : List AnalystPersona :=
  ticker_signals.filterMap (fun p => alookup p.1 persona_definitions)

/-- Signal string used by `select_primary_debaters`:
`get("signal", "").lower()` (engine.py line 409 — note the `""` default,
unlike the fallback tally). -/
def debaterSignal (d : SignalData) : String := pyLower (d.signal.getD "")

/-- Stable descending insertion by confidence: an element is placed before
the first entry whose confidence does not exceed it, so equal confidences
keep their original order — the behavior of Python `list.sort(key=...,
reverse=True)`. -/
def insertConfDesc (x : AnalystPersona × ℚ) :
    List (AnalystPersona × ℚ) → List (AnalystPersona × ℚ)
  | [] => [x]
  | y :: ys => if y.2 ≤ x.2 then x :: y :: ys else y :: insertConfDesc x ys

/-- Stable descending sort by confidence. -/
def sortConfDesc (l : List (AnalystPersona × ℚ)) : List (AnalystPersona × ℚ) :=
  l.foldr insertConfDesc []

/-- Order-preserving de-duplicating append of the first two entries of each
category list (the nested loop of engine.py lines 424-428). -/
def dedupTake2 (cats : List (List (AnalystPersona × ℚ))) : List AnalystPersona :=
  cats.foldl (fun acc cat =>
    (cat.take 2).foldl (fun acc p => if p.1 ∈ acc then acc else acc ++ [p.1]) acc) []

/-- Embedding of `select_primary_debaters` (engine.py lines 400-435).  The
source sorts the bullish and bearish buckets by confidence (descending) but
— as written — never sorts the neutral bucket, and tops the list up to four
only when the analyst list itself has at least four entries. -/
def select_primary_debaters (ticker_signals : TickerSignals)
    (analysts : List AnalystPersona) : List AnalystPersona :=
  let entries := analysts.filterMap (fun a =>
    (alookup a.name ticker_signals).map (fun d => (a, d.confidence.getD 50, debaterSignal d)))
  let bullish_analysts := entries.filterMap (fun e =>
    if e.2.2 = "bullish" then some (e.1, e.2.1) else none)
  let bearish_analysts := entries.filterMap (fun e =>
    if e.2.2 = "bearish" then some (e.1, e.2.1) else none)
  let neutral_analysts := entries.filterMap (fun e =>
    if e.2.2 ≠ "bullish" ∧ e.2.2 ≠ "bearish" then some (e.1, e.2.1) else none)
  let primary := dedupTake2 [sortConfDesc bullish_analysts, sortConfDesc bearish_analysts,
    neutral_analysts]
  if primary.length < 4 ∧ 4 ≤ analysts.length then
    primary ++ (analysts.filter (· ∉ primary)).take (4 - primary.length)
  else primary

/-- Specification companion of `select_primary_debaters`, written from the
amended claim text: partition the present personas by signal; order the
bullish and the bearish categories by confidence descending (stably) and
keep the neutral category in analyst-list order; take up to the first two of
each category; de-duplicate preserving order; if fewer than four distinct
debaters result and the analyst list holds at least four personas, fill the
remaining slots from the unused personas in list order, up to four. -/
def select_primary_debaters_spec (ticker_signals : TickerSignals)
    (analysts : List AnalystPersona) : List AnalystPersona :=
  let present := analysts.filter (fun a => (alookup a.name ticker_signals).isSome)
  let confOf := fun (a : AnalystPersona) =>
    (((alookup a.name ticker_signals).bind (·.confidence)).getD 50)
  let sigOf := fun (a : AnalystPersona) =>
    debaterSignal ((alookup a.name ticker_signals).getD {})
  let cat := fun (s : String) =>
    ((present.filter (fun a => sigOf a = s)).map (fun a => (a, confOf a)))
  let neutralCat :=
    ((present.filter (fun a => sigOf a ≠ "bullish" ∧ sigOf a ≠ "bearish")).map
      (fun a => (a, confOf a)))
  let chosen := dedupTake2 [sortConfDesc (cat "bullish"), sortConfDesc (cat "bearish"),
    neutralCat]
  if chosen.length < 4 ∧ 4 ≤ analysts.length then
    chosen ++ (analysts.filter (· ∉ chosen)).take (4 - chosen.length)
  else chosen

/-! ## The round-table simulation (`simulate_round_table`) and entry point -/

/-- Oracle for the LLM-driven phases of one round-table run.  Each component
is the observable result of the corresponding generator call: either the
produced text (or list of transcript turns) or the fact that the call raised
(any exception, absorbed by the `try/except` at its call site). -/
structure RTOracle where
  initial_position : ℕ → Except Unit String
  questions : Except Unit (List String)
  debate_exchanges : Except Unit (List String)
  synthesis : Except Unit (List String)
  moderator_conclusion : Except Unit String
  final_llm : ℕ → LLMCallOutcome

/-- Embedding of `generate_moderator_intro` (engine.py lines 343-345). -/
def generate_moderator_intro (ticker : String) : String :=
  "Moderator: Welcome everyone to our investment round table discussion on " ++ ticker ++
  ". Today we" ++ apos ++ "ll examine the bull and bear cases, analyze the company" ++ apos ++
  "s fundamentals, technical indicators, and reach a consensus investment decision. Let" ++
  apos ++ "s begin with each of you sharing your initial position."

/-- Phase 1 contribution to the transcript (engine.py lines 136-154): for each
analyst whose *display name* is a key of the ticker signal map, one
`"\n\n{name}: {position}"` block; a failed generation skips that analyst. -/
def openingsSegment (ticker_signals : TickerSignals) (oracle : RTOracle) : String :=
  (setup_analysts ticker_signals).enum.foldl (fun acc ia =>
    if (alookup ia.2.name ticker_signals).isSome then
      match oracle.initial_position ia.1 with
      | .ok position => acc ++ "\n\n" ++ ia.2.name ++ ": " ++ position
      | .error _ => acc
    else acc) ""

/-- The conversation turns accumulated by phases 2-4 (engine.py lines
159-208): each phase contributes its whole list of turns, or nothing when
its generator raised (the partial list built inside a raising generator is
discarded with it). -/
def conversationTurns (oracle : RTOracle) : List String :=
  (match oracle.questions with | .ok qs => qs | .error _ => []) ++
  (match oracle.debate_exchanges with | .ok ds => ds | .error _ => []) ++
  (match oracle.synthesis with | .ok ss => ss | .error _ => [])

/-- The moderator-conclusion contribution (engine.py lines 213-224), with its
fixed fallback line. -/
def conclusionSegment (ticker : String) (oracle : RTOracle) : String :=
  match oracle.moderator_conclusion with
  | .ok c => "\n\n" ++ c
  | .error _ => "\n\nModerator: Thank you all for your insights on " ++ ticker ++
      ". This concludes our discussion."

/-- Transcript state after the moderator introduction. -/
def transcriptAfterIntro (ticker : String) : String := generate_moderator_intro ticker

/-- Transcript state after the opening positions. -/
def transcriptAfterOpenings (ticker : String) (ticker_signals : TickerSignals)
    (oracle : RTOracle) : String :=
  transcriptAfterIntro ticker ++ openingsSegment ticker_signals oracle

/-- Transcript state after the questioning/debate/synthesis turns are appended
(engine.py line 211). -/
def transcriptAfterTurns (ticker : String) (ticker_signals : TickerSignals)
    (oracle : RTOracle) : String :=
  transcriptAfterOpenings ticker ticker_signals oracle ++
    ("\n\n" ++ "\n\n".intercalate (conversationTurns oracle))

/-- The complete transcript, after the moderator conclusion. -/
def transcriptFinal (ticker : String) (ticker_signals : TickerSignals)
    (oracle : RTOracle) : String :=
  transcriptAfterTurns ticker ticker_signals oracle ++ conclusionSegment ticker oracle

/-- The `RoundTableOutput` model (engine.py lines 12-19); the six verdict
fields carry the values read out of the final-analysis dict. -/
structure RoundTableOutput where
  signal : Json
  confidence : Json
  reasoning : Json
  discussion_summary : Json
  consensus_view : Json
  dissenting_opinions : Json
  conversation_transcript : String

/-- Embedding of `simulate_round_table` (engine.py lines 120-256): build the
transcript through the phases, run `generate_final_analysis` (which handles
all its errors internally), and assemble the output from the verdict dict
plus the full transcript. -/
def simulate_round_table (ticker : String) (ticker_signals : TickerSignals)
    (oracle : RTOracle) : RoundTableOutput :=
  let full_transcript := transcriptFinal ticker ticker_signals oracle
  let final_analysis := generate_final_analysis oracle.final_llm ticker_signals
  { signal := (alookup "signal" final_analysis).getD .null,
    confidence := (alookup "confidence" final_analysis).getD .null,
    reasoning := (alookup "reasoning" final_analysis).getD .null,
    discussion_summary := (alookup "discussion_summary" final_analysis).getD .null,
    consensus_view := (alookup "consensus_view" final_analysis).getD .null,
    dissenting_opinions := (alookup "dissenting_opinions" final_analysis).getD .null,
    conversation_transcript := full_transcript }

/-- Embedding of `run_round_table` (round_table/main.py lines 7-102): empty
signal data returns the empty mapping; the risk-management and round-table
entries are filtered out; each ticker's per-agent signals are collected, and
a ticker with no remaining signals is skipped without an entry. -/
def run_round_table (analyst_signals : List (String × List (String × SignalData)))
    (tickers : List String) (oracle : RTOracle) : List (String × RoundTableOutput) :=
  if analyst_signals.isEmpty then []
  else
    let filtered_signals := analyst_signals.filter
      (fun p => p.1 ≠ "risk_management_agent" ∧ p.1 ≠ "round_table")
    tickers.foldl (fun acc ticker =>
      let ticker_signals := filtered_signals.filterMap
        (fun p => (alookup ticker p.2).map (fun d => (p.1, d)))
      if ticker_signals.isEmpty then acc
      else aset ticker (simulate_round_table ticker ticker_signals oracle) acc) []

/-! ## Concrete inputs used by the claim theorems -/

/-- A single innocuous news item: no keyword list matches its title, its date
is truthy. -/
def c1News : List CompanyNews :=
  [{ title := "Quiet day", date := "2024-01-10", sentiment := some "neutral" }]

/-- A single insider trade whose truthy transaction date precedes the news
date above. -/
def c1Trades : List InsiderTrade :=
  [{ transaction_date := some "2024-01-01", transaction_shares := 5 }]

/-- A neutral LLM signal used where the generation result is irrelevant. -/
def neutralSignal : AgentSignal := { signal := "neutral", confidence := 0, reasoning := "" }

/-- Latest-period line item for the Ben Graham aggregate-score input: strong
current ratio, zero debt, dividend payer, positive EPS and book value, tiny
market cap relative to net current assets. -/
def c3Item0 : LineItem :=
  { current_assets := some 1000, current_liabilities := some 400,
    total_assets := some 1000, total_liabilities := some 0, book_value_per_share := some 10,
    earnings_per_share := some 1, outstanding_shares := some 1,
    dividends_and_other_cash_distributions := some (-5) }

/-- Prior-period line item: higher EPS so the earliest-to-latest growth check
passes, dividends paid. -/
def c3Item1 : LineItem :=
  { earnings_per_share := some 2, dividends_and_other_cash_distributions := some (-5) }

/-- The Ben Graham line-item history (newest first). -/
def c3Items : List LineItem := [c3Item0, c3Item1]

/-- The ticker signal map of the spec's signal-vote example:
`{A: bullish/80, B: bullish/60, C: bearish/90}`. -/
def c4Sigs : TickerSignals :=
  [("agent_a", { signal := some "bullish", confidence := some 80 }),
   ("agent_b", { signal := some "bullish", confidence := some 60 }),
   ("agent_c", { signal := some "bearish", confidence := some 90 })]

/-- A one-analyst signal map on which the signal-vote fallback is bullish/80. -/
def c6Sigs : TickerSignals :=
  [("agent_a", { signal := some "bullish", confidence := some 80 })]

/-- A response text that defeats every parsing attempt: no code fence, no
brace, no extractable required key. -/
def unparsableResponse : String := "I cannot comply."

/-- The always-rate-limited LLM call. -/
def rateLimitedAlways : ℕ → LLMCallOutcome := fun _ => .rateLimited

/-- Shorthand for building a registry-shaped persona carrying only a name. -/
def mkPersona (n : String) : AnalystPersona := { name := n }

/-- Three analysts, all neutral, with confidences 10, 40, 90 in list order. -/
def c8NeutralAnalysts : List AnalystPersona := [mkPersona "n1", mkPersona "n2", mkPersona "n3"]

/-- The signal map for the all-neutral selection scenario. -/
def c8NeutralSigs : TickerSignals :=
  [("n1", { signal := some "neutral", confidence := some 10 }),
   ("n2", { signal := some "neutral", confidence := some 40 }),
   ("n3", { signal := some "neutral", confidence := some 90 })]

/-- The analyst list of the spec's debater-selection example: three bullish
(confidences 90, 70, 50), one bearish (60), one neutral (40). -/
def c8Analysts : List AnalystPersona :=
  [mkPersona "b1", mkPersona "b2", mkPersona "b3", mkPersona "br1", mkPersona "nu1"]

/-- The signal map of the spec's debater-selection example. -/
def c8Sigs : TickerSignals :=
  [("b1", { signal := some "bullish", confidence := some 90 }),
   ("b2", { signal := some "bullish", confidence := some 70 }),
   ("b3", { signal := some "bullish", confidence := some 50 }),
   ("br1", { signal := some "bearish", confidence := some 60 }),
   ("nu1", { signal := some "neutral", confidence := some 40 })]

/-- An oracle on which every LLM-driven phase fails; used where the oracle
content is irrelevant to the property. -/
def silentOracle : RTOracle :=
  { initial_position := fun _ => .error (), questions := .error (),
    debate_exchanges := .error (), synthesis := .error (),
    moderator_conclusion := .error (), final_llm := fun _ => .otherFailure }

/-- One agent holding one ticker signal, for the round-table entry witness. -/
def c9Signals : List (String × List (String × SignalData)) :=
  [("ben_graham_agent", [("AAPL", { signal := some "bullish", confidence := some 70 })])]

/-! ## Supporting lemmas -/

/-- Python `max` returns an element of its input. -/
theorem pyMaxBy_mem {α β : Type} [LinearOrder β] (f : α → β) (x : α) (xs : List α) :
    pyMaxBy f x xs ∈ x :: xs := by
  induction xs generalizing x with
  | nil => simp [pyMaxBy]
  | cons y ys ih =>
    have e : pyMaxBy f x (y :: ys) = pyMaxBy f (if f x < f y then y else x) ys := rfl
    rw [e]
    rcases List.mem_cons.1 (ih (x := if f x < f y then y else x)) with h | h
    · rw [h]
      split
      · exact List.mem_cons_of_mem _ (List.mem_cons_self _ _)
      · exact List.mem_cons_self _ _
    · exact List.mem_cons_of_mem _ (List.mem_cons_of_mem _ h)

/-- Python `max` returns an element with a maximal key. -/
theorem pyMaxBy_le {α β : Type} [LinearOrder β] (f : α → β) (x : α) (xs : List α) :
    ∀ y ∈ x :: xs, f y ≤ f (pyMaxBy f x xs) := by
  induction xs generalizing x with
  | nil =>
    intro y hy
    rcases List.mem_cons.1 hy with rfl | h
    · simp [pyMaxBy]
    · simp at h
  | cons z zs ih =>
    intro y hy
    have e : pyMaxBy f x (z :: zs) = pyMaxBy f (if f x < f z then z else x) zs := rfl
    rw [e]
    have hhead : f y ≤ f (if f x < f z then z else x) →
        f y ≤ f (pyMaxBy f (if f x < f z then z else x) zs) := fun h =>
      h.trans (ih _ _ (List.mem_cons_self _ _))
    rcases List.mem_cons.1 hy with rfl | hz
    · refine hhead ?_
      split
      · next h => exact h.le
      · exact le_rfl
    · rcases List.mem_cons.1 hz with rfl | hzs
      · refine hhead ?_
        split
        · exact le_rfl
        · next h => exact le_of_not_lt h
      · exact ih _ y (List.mem_cons_of_mem _ hzs)

/-- Every bucket appears in the tally order. -/
theorem bucket_mem_order (b : Bucket) : b ∈ bucketOrder := by
  cases b <;> simp [bucketOrder]

/-- The winning bucket of the signal-vote fallback has a maximal vote count,
and among the buckets tied at that count it has a maximal average
confidence. -/
theorem fallbackWinner_spec (sigs : TickerSignals) :
    (∀ b : Bucket, bucketCount sigs b ≤ bucketCount sigs (fallbackWinner sigs)) ∧
    (∀ b : Bucket, bucketCount sigs b = bucketCount sigs (fallbackWinner sigs) →
      bucketAvgConfidence sigs b ≤ bucketAvgConfidence sigs (fallbackWinner sigs)) := by
  have hmax0 : ∀ c : Bucket, bucketCount sigs c ≤ bucketCount sigs
      (pyMaxBy (fun b => bucketCount sigs b) Bucket.bullish [Bucket.bearish, Bucket.neutral]) :=
    fun c => pyMaxBy_le (fun b => bucketCount sigs b) Bucket.bullish
      [Bucket.bearish, Bucket.neutral] c (by cases c <;> simp)
  cases htt : bucketOrder.filter (fun b => bucketCount sigs b = bucketCount sigs
      (pyMaxBy (fun b => bucketCount sigs b) Bucket.bullish
        [Bucket.bearish, Bucket.neutral])) with
  | nil =>
    exfalso
    have : pyMaxBy (fun b => bucketCount sigs b) Bucket.bullish
        [Bucket.bearish, Bucket.neutral] ∈ bucketOrder.filter (fun b =>
          bucketCount sigs b = bucketCount sigs (pyMaxBy (fun b => bucketCount sigs b)
            Bucket.bullish [Bucket.bearish, Bucket.neutral])) :=
      List.mem_filter.2 ⟨bucket_mem_order _, by simp⟩
    rw [htt] at this
    simp at this
  | cons t ts =>
    have hmem_tied : ∀ b : Bucket, bucketCount sigs b = bucketCount sigs
        (pyMaxBy (fun b => bucketCount sigs b) Bucket.bullish [Bucket.bearish, Bucket.neutral]) →
        b ∈ t :: ts := by
      intro b hb
      rw [← htt]
      exact List.mem_filter.2 ⟨bucket_mem_order b, decide_eq_true hb⟩
    have htied_mem : ∀ b ∈ t :: ts, bucketCount sigs b = bucketCount sigs
        (pyMaxBy (fun b => bucketCount sigs b) Bucket.bullish
          [Bucket.bearish, Bucket.neutral]) := by
      intro b hb
      rw [← htt] at hb
      exact of_decide_eq_true (List.mem_filter.1 hb).2
    have hwin : fallbackWinner sigs =
        if 1 < (t :: ts).length then pyMaxBy (bucketAvgConfidence sigs) t ts
        else pyMaxBy (fun b => bucketCount sigs b) Bucket.bullish
          [Bucket.bearish, Bucket.neutral] := by
      simp only [fallbackWinner, htt]
    by_cases hlen : 1 < (t :: ts).length
    · rw [if_pos hlen] at hwin
      have hw_mem : pyMaxBy (bucketAvgConfidence sigs) t ts ∈ t :: ts := pyMaxBy_mem _ _ _
      have hw_count := htied_mem _ hw_mem
      constructor
      · intro b
        rw [hwin, hw_count]
        exact hmax0 b
      · intro b hb
        rw [hwin] at hb ⊢
        exact pyMaxBy_le (bucketAvgConfidence sigs) t ts b
          (hmem_tied b (by rw [hb, hw_count]))
    · rw [if_neg hlen] at hwin
      have hts : ts = [] := by
        cases ts with
        | nil => rfl
        | cons u us => exact absurd (by simp) hlen
      have hover0_mem : pyMaxBy (fun b => bucketCount sigs b) Bucket.bullish
          [Bucket.bearish, Bucket.neutral] ∈ t :: ts := hmem_tied _ rfl
      constructor
      · intro b
        rw [hwin]
        exact hmax0 b
      · intro b hb
        rw [hwin] at hb ⊢
        have hb_mem : b ∈ t :: ts := hmem_tied b hb
        rw [hts] at hb_mem hover0_mem
        simp at hb_mem hover0_mem
        rw [hb_mem, ← hover0_mem]

/-- A non-empty signal map gives the winning bucket at least one vote. -/
theorem bucketCount_winner_pos (sigs : TickerSignals) (h : sigs ≠ []) :
    0 < bucketCount sigs (fallbackWinner sigs) := by
  match sigs, h with
  | p :: rest, _ =>
    have h1 : 0 < bucketCount (p :: rest) (classifySignal p.2) := by
      simp [bucketCount, List.filter_cons]
    exact lt_of_lt_of_le h1 ((fallbackWinner_spec (p :: rest)).1 _)

/-- The signal entry of the fallback dict is the winning bucket's name. -/
theorem fallback_lookup_signal (sigs : TickerSignals) :
    alookup "signal" (generate_fallback_analysis sigs) =
      some (.str (fallbackWinner sigs).str) := rfl

/-- The confidence entry of the fallback dict is the winning bucket's average
confidence whenever that bucket has votes. -/
theorem fallback_lookup_confidence (sigs : TickerSignals)
    (h : 0 < bucketCount sigs (fallbackWinner sigs)) :
    alookup "confidence" (generate_fallback_analysis sigs) =
      some (.num (bucketConfidence sigs (fallbackWinner sigs) /
        (bucketCount sigs (fallbackWinner sigs) : ℕ))) := by
  simp only [generate_fallback_analysis, alookup, if_pos h]
  rfl

/-- Lookup after a dict assignment. -/
theorem alookup_aset {β : Type} (k k' : String) (v : β) (d : List (String × β)) :
    alookup k' (aset k v d) = if k = k' then some v else alookup k' d := by
  induction d with
  | nil => simp only [aset, alookup]
  | cons p rest ih =>
    by_cases h : p.1 = k
    · subst h
      simp only [aset, if_pos rfl]
      by_cases h2 : p.1 = k' <;> simp [alookup, h2]
    · simp only [aset, if_neg h, alookup, ih]
      by_cases h2 : p.1 = k'
      · have hkk : ¬k = k' := fun hc => h (h2.trans hc.symm)
        simp [h2, hkk]
      · simp [h2]

/-- Lookup across an append when the key resolves on the left. -/
theorem alookup_append_left {β : Type} (k : String) (d e : List (String × β))
    (h : (alookup k d).isSome) : alookup k (d ++ e) = alookup k d := by
  induction d with
  | nil => simp [alookup] at h
  | cons p rest ih =>
    by_cases hp : p.1 = k
    · simp [alookup, hp]
    · simp only [alookup, if_neg hp] at h ⊢
      exact ih h

/-- Lookup across an append when the key is absent on the left. -/
theorem alookup_append_right {β : Type} (k : String) (d e : List (String × β))
    (h : alookup k d = none) : alookup k (d ++ e) = alookup k e := by
  induction d with
  | nil => simp [alookup]
  | cons p rest ih =>
    by_cases hp : p.1 = k
    · simp [alookup, hp] at h
    · simp only [alookup, if_neg hp] at h ⊢
      exact ih h

/-- One backfill step never removes a present key. -/
theorem fillStep_preserves (d : PyDict) (k k' : String)
    (h : (alookup k d).isSome) : (alookup k (fillStep d k')).isSome := by
  unfold fillStep
  split
  · exact h
  · rw [alookup_append_left _ _ _ h]
    exact h

/-- One backfill step makes its own key present. -/
theorem fillStep_self (d : PyDict) (k : String) :
    (alookup k (fillStep d k)).isSome := by
  unfold fillStep
  split
  · next h => exact h
  · next h =>
    rw [alookup_append_right _ _ _ (Option.not_isSome_iff_eq_none.1 h)]
    simp [alookup]

/-- The whole backfill fold never removes a present key. -/
theorem fill_fold_preserves (keys : List String) (d : PyDict) (k : String)
    (h : (alookup k d).isSome) : (alookup k (keys.foldl fillStep d)).isSome := by
  induction keys generalizing d with
  | nil => exact h
  | cons key rest ih => exact ih _ (fillStep_preserves _ _ _ h)

/-- After the backfill, every required key is present. -/
theorem fillMissingKeys_isSome (d : PyDict) (k : String) (hk : k ∈ required_keys) :
    (alookup k (fillMissingKeys d)).isSome := by
  unfold fillMissingKeys
  have main : ∀ (keys : List String) (d : PyDict), k ∈ keys →
      (alookup k (keys.foldl fillStep d)).isSome := by
    intro keys
    induction keys with
    | nil => intro d h; simp at h
    | cons key rest ih =>
      intro d h
      rcases List.mem_cons.1 h with rfl | hmem
      · exact fill_fold_preserves rest _ k (fillStep_self d k)
      · exact ih _ hmem
  exact main required_keys d hk

/-- The signal-vote fallback dict carries all six required fields, a valid
signal string, and a numeric confidence. -/
theorem fallback_fields (sigs : TickerSignals) :
    ((alookup "signal" (generate_fallback_analysis sigs)).isSome ∧
     (alookup "confidence" (generate_fallback_analysis sigs)).isSome ∧
     (alookup "reasoning" (generate_fallback_analysis sigs)).isSome ∧
     (alookup "discussion_summary" (generate_fallback_analysis sigs)).isSome ∧
     (alookup "consensus_view" (generate_fallback_analysis sigs)).isSome ∧
     (alookup "dissenting_opinions" (generate_fallback_analysis sigs)).isSome) ∧
    (∃ s, alookup "signal" (generate_fallback_analysis sigs) = some (.str s) ∧
      (s = "bullish" ∨ s = "bearish" ∨ s = "neutral")) ∧
    (∃ q, alookup "confidence" (generate_fallback_analysis sigs) = some (.num q)) := by
  refine ⟨⟨rfl, rfl, rfl, rfl, rfl, rfl⟩, ⟨(fallbackWinner sigs).str, rfl, ?_⟩, ⟨_, rfl⟩⟩
  cases fallbackWinner sigs <;> simp [Bucket.str]

/-- The validation pass yields all six required fields, a valid signal
string, and a numeric confidence, whatever JSON value the parse attempts
produced. -/
theorem validate_fields (j : Json) (sigs : TickerSignals) :
    ((alookup "signal" (validateAnalysisJson j sigs)).isSome ∧
     (alookup "confidence" (validateAnalysisJson j sigs)).isSome ∧
     (alookup "reasoning" (validateAnalysisJson j sigs)).isSome ∧
     (alookup "discussion_summary" (validateAnalysisJson j sigs)).isSome ∧
     (alookup "consensus_view" (validateAnalysisJson j sigs)).isSome ∧
     (alookup "dissenting_opinions" (validateAnalysisJson j sigs)).isSome) ∧
    (∃ s, alookup "signal" (validateAnalysisJson j sigs) = some (.str s) ∧
      (s = "bullish" ∨ s = "bearish" ∨ s = "neutral")) ∧
    (∃ q, alookup "confidence" (validateAnalysisJson j sigs) = some (.num q)) := by
  cases j with
  | obj fields =>
    simp only [validateAnalysisJson]
    have h1 : ∀ k ∈ required_keys, (alookup k (fillMissingKeys fields)).isSome :=
      fun k hk => fillMissingKeys_isSome fields k hk
    have hother : ∀ k, k ∈ required_keys → ¬("confidence" = k) → ¬("signal" = k) →
        ∀ (x y : Json), (alookup k (aset "confidence" x
          (aset "signal" y (fillMissingKeys fields)))).isSome := by
      intro k hk hc hs x y
      rw [alookup_aset, if_neg hc, alookup_aset, if_neg hs]
      exact h1 k hk
    have hsig : ∀ (x : Json) (v : String), alookup "signal" (aset "confidence" x
        (aset "signal" (.str v) (fillMissingKeys fields))) = some (.str v) := by
      intro x v
      rw [alookup_aset, if_neg (by decide), alookup_aset, if_pos rfl]
    refine ⟨⟨?_, ?_, ?_, ?_, ?_, ?_⟩, ?_, ?_⟩
    · rw [hsig]
      rfl
    · rw [alookup_aset, if_pos rfl]
      rfl
    · exact hother _ (by simp [required_keys]) (by decide) (by decide) _ _
    · exact hother _ (by simp [required_keys]) (by decide) (by decide) _ _
    · exact hother _ (by simp [required_keys]) (by decide) (by decide) _ _
    · exact hother _ (by simp [required_keys]) (by decide) (by decide) _ _
    · refine ⟨_, hsig _ _, ?_⟩
      rcases hv : alookup "signal" (fillMissingKeys fields) with _ | v
      · exact Or.inr (Or.inr rfl)
      · cases v with
        | str s =>
          by_cases hc : validSignalStrings.contains s
          · show (if validSignalStrings.contains s then s else "neutral") = "bullish" ∨
              (if validSignalStrings.contains s then s else "neutral") = "bearish" ∨
              (if validSignalStrings.contains s then s else "neutral") = "neutral"
            rw [if_pos hc]
            simpa [validSignalStrings] using hc
          · show (if validSignalStrings.contains s then s else "neutral") = "bullish" ∨
              (if validSignalStrings.contains s then s else "neutral") = "bearish" ∨
              (if validSignalStrings.contains s then s else "neutral") = "neutral"
            rw [if_neg hc]
            exact Or.inr (Or.inr rfl)
        | null => exact Or.inr (Or.inr rfl)
        | bool b => exact Or.inr (Or.inr rfl)
        | num q => exact Or.inr (Or.inr rfl)
        | arr l => exact Or.inr (Or.inr rfl)
        | obj l => exact Or.inr (Or.inr rfl)
    · have hconf : ∀ (d : PyDict) (x : Json),
          alookup "confidence" (aset "confidence" x d) = some x := fun d x => by
        rw [alookup_aset, if_pos rfl]
      exact ⟨_, hconf _ _⟩
  | null => exact fallback_fields sigs
  | bool b => exact fallback_fields sigs
  | num q => exact fallback_fields sigs
  | str s => exact fallback_fields sigs
  | arr l => exact fallback_fields sigs

/-- The retry loop performs at most `4 - k` sleeps from attempt `k`. -/
theorem retry_sleeps_le (llmCall : ℕ → LLMCallOutcome) :
    ∀ fuel k, (retryAux llmCall k fuel).1.length ≤ 4 - k := by
  intro fuel
  induction fuel with
  | zero => intro k; simp [retryAux]
  | succ n ih =>
    intro k
    cases h : llmCall k with
    | ok t => simp [retryAux, h]
    | otherFailure => simp [retryAux, h]
    | rateLimited =>
      simp only [retryAux, h]
      split
      · next hk =>
        have := ih (k + 1)
        simp only [List.length_cons]
        omega
      · simp

/-- Projecting one signal bucket out of the debater entries equals filtering
the present analysts by that bucket and reading their confidences. -/
theorem entries_proj_eq (sigs : TickerSignals) (analysts : List AnalystPersona)
    (P : String → Prop) [DecidablePred P] :
    (analysts.filterMap (fun a => (alookup a.name sigs).map
        (fun d => (a, d.confidence.getD 50, debaterSignal d)))).filterMap
      (fun e => if P e.2.2 then some (e.1, e.2.1) else none)
    = ((analysts.filter (fun a => (alookup a.name sigs).isSome)).filter
        (fun a => P (debaterSignal ((alookup a.name sigs).getD {})))).map
      (fun a => (a, ((alookup a.name sigs).bind (·.confidence)).getD 50)) := by
  induction analysts with
  | nil => rfl
  | cons a rest ih =>
    cases hl : alookup a.name sigs with
    | none => simpa [List.filterMap_cons, List.filter_cons, hl] using ih
    | some d =>
      by_cases hp : P (debaterSignal d)
      · simpa [List.filterMap_cons, List.filter_cons, hl, hp] using ih
      · simpa [List.filterMap_cons, List.filter_cons, hl, hp] using ih

/-! ## Claim theorems -/

/-- C1: the claim says the analyst agent wrapper always returns normally with
a signal per ticker, and in particular that `nancy_pelosi_agent` completes on
non-empty news and insider trades with a trade date before a news date.  The
code violates this: `nancy_pelosi.py` never imports `datetime`, so
`analyze_information_asymmetry` raises `NameError` at its
`datetime.strptime` call on exactly that branch, and the wrapper has no
handler, so the exception propagates out of `nancy_pelosi_agent` — this
theorem evaluates the embedded wrapper at such an input. -/
theorem c1_nancy_pelosi_agent_raises_nameerror :
    nancy_pelosi_agent ["AAPL"] (fun _ => []) (fun _ => c1News) (fun _ => c1Trades)
      (fun _ => neutralSignal) = .error .nameError ∧
    analyze_information_asymmetry c1News c1Trades "AAPL" = .error .nameError :=
  ⟨rfl, rfl⟩

/-- C2: the claim says every scoring evaluator returns score 0 with a
non-empty detail string on a null or empty input and never raises.  This
holds for `analyze_earnings_stability` (both null and empty) and for
`analyze_policy_trends` on the empty list, but `analyze_policy_trends`
iterates its argument at line 322 before its null guard at line 351, so a
`None` input raises `TypeError` — this theorem evaluates the embedded code
at all these inputs. -/
theorem c2_policy_trends_none_raises :
    analyze_policy_trends none "AAPL" = .error .typeError ∧
    analyze_policy_trends (some []) "AAPL" =
      .ok { score := 0, details := "No news data available for policy trend analysis" } ∧
    "No news data available for policy trend analysis" ≠ "" ∧
    analyze_earnings_stability (none : Option (List Unit)) none =
      { score := 0, details := "Insufficient data for earnings stability analysis" } ∧
    analyze_earnings_stability (some ([] : List Unit)) (some []) =
      { score := 0, details := "Insufficient data for earnings stability analysis" } ∧
    "Insufficient data for earnings stability analysis" ≠ "" :=
  ⟨rfl, rfl, by decide, rfl, rfl, by decide⟩

/-- C3: the claim says the Ben Graham aggregate score — the sum of the three
evaluator scores — never exceeds its documented maximum of 15.  The code
violates this: earnings stability can contribute 4, financial strength 5,
and Graham valuation 7 (the net-net +4 and the margin-of-safety +3 are not
exclusive), so the concrete input below reaches 16. -/
theorem c3_ben_graham_aggregate_reaches_16 :
    ben_graham_total_score (some [()]) (some c3Items) (some 1) = 16 ∧
    ¬ben_graham_total_score (some [()]) (some c3Items) (some 1) ≤ 15 := by
  have h : ben_graham_total_score (some [()]) (some c3Items) (some 1) = 16 := by
    norm_num [ben_graham_total_score, analyze_earnings_stability, analyze_financial_strength,
      analyze_valuation_graham, c3Items, c3Item0, c3Item1, optListFalsy, List.filterMap]
  refine ⟨h, ?_⟩
  rw [h]
  norm_num

/-- C4: for every non-empty ticker signal map, the signal-vote fallback
returns the name of a bucket with the most votes, ties on the vote count are
broken by the highest average confidence, and the returned confidence is the
average confidence of the winning bucket; on
`{A: bullish/80, B: bullish/60, C: bearish/90}` the result is bullish with
confidence 70. -/
theorem c4_fallback_majority_vote (sigs : TickerSignals) (h : sigs ≠ []) :
    (∀ b : Bucket, bucketCount sigs b ≤ bucketCount sigs (fallbackWinner sigs)) ∧
    (∀ b : Bucket, bucketCount sigs b = bucketCount sigs (fallbackWinner sigs) →
      bucketAvgConfidence sigs b ≤ bucketAvgConfidence sigs (fallbackWinner sigs)) ∧
    alookup "signal" (generate_fallback_analysis sigs) =
      some (.str (fallbackWinner sigs).str) ∧
    alookup "confidence" (generate_fallback_analysis sigs) =
      some (.num (bucketConfidence sigs (fallbackWinner sigs) /
        (bucketCount sigs (fallbackWinner sigs) : ℕ))) ∧
    fallbackWinner c4Sigs = .bullish ∧
    alookup "signal" (generate_fallback_analysis c4Sigs) = some (.str "bullish") ∧
    alookup "confidence" (generate_fallback_analysis c4Sigs) = some (.num 70) := by
  obtain ⟨h1, h2⟩ := fallbackWinner_spec sigs
  refine ⟨h1, h2, fallback_lookup_signal sigs,
    fallback_lookup_confidence sigs (bucketCount_winner_pos sigs h), rfl, rfl, ?_⟩
  have e : alookup "confidence" (generate_fallback_analysis c4Sigs) =
      some (.num ((0 + 80 + 60 : ℚ) / ((2 : ℕ) : ℚ))) := rfl
  rw [e]
  norm_num

/-- Witness for C4 at the spec's concrete example map. -/
theorem c4_fallback_majority_vote_witness :
    alookup "signal" (generate_fallback_analysis c4Sigs) = some (.str "bullish") ∧
    alookup "confidence" (generate_fallback_analysis c4Sigs) = some (.num 70) :=
  ⟨(c4_fallback_majority_vote c4Sigs (by decide)).2.2.2.2.2.1,
   (c4_fallback_majority_vote c4Sigs (by decide)).2.2.2.2.2.2⟩

/-- C5: for every LLM response text to the final-verdict call — whether a
fenced-code-block JSON response, a bare JSON response, a single-quoted JSON
response, or a completely unparsable one — and for every retry outcome,
`generate_final_analysis` returns a dict with all six required fields, with
a signal among bullish/bearish/neutral and a numeric confidence. -/
theorem c5_final_verdict_six_fields (llmCall : ℕ → LLMCallOutcome) (sigs : TickerSignals) :
    ((alookup "signal" (generate_final_analysis llmCall sigs)).isSome ∧
     (alookup "confidence" (generate_final_analysis llmCall sigs)).isSome ∧
     (alookup "reasoning" (generate_final_analysis llmCall sigs)).isSome ∧
     (alookup "discussion_summary" (generate_final_analysis llmCall sigs)).isSome ∧
     (alookup "consensus_view" (generate_final_analysis llmCall sigs)).isSome ∧
     (alookup "dissenting_opinions" (generate_final_analysis llmCall sigs)).isSome) ∧
    (∃ s, alookup "signal" (generate_final_analysis llmCall sigs) = some (.str s) ∧
      (s = "bullish" ∨ s = "bearish" ∨ s = "neutral")) ∧
    (∃ q, alookup "confidence" (generate_final_analysis llmCall sigs) = some (.num q)) := by
  unfold generate_final_analysis
  cases (retryAux llmCall 0 5).2 with
  | none => exact fallback_fields sigs
  | some response_text => exact validate_fields _ sigs

/-- C6 counterexample: on a response that defeats every parsing attempt, the
verdict is the fixed `default_analysis` (signal neutral), not the
signal-vote fallback (which would be bullish on this one-bullish-signal
map) — refuting the claim that the verdict equals the fallback. -/
theorem c6_unparsable_yields_default_not_fallback :
    alookup "signal" (generate_final_analysis (fun _ => .ok unparsableResponse) c6Sigs) =
      some (.str "neutral") ∧
    alookup "signal" (generate_fallback_analysis c6Sigs) = some (.str "bullish") ∧
    generate_final_analysis (fun _ => .ok unparsableResponse) c6Sigs ≠
      generate_fallback_analysis c6Sigs := by
  refine ⟨rfl, rfl, fun h => ?_⟩
  have ha : alookup "signal" (generate_final_analysis (fun _ => .ok unparsableResponse)
      c6Sigs) = some (.str "neutral") := rfl
  rw [h] at ha
  have hb : alookup "signal" (generate_fallback_analysis c6Sigs) =
      some (.str "bullish") := rfl
  rw [ha] at hb
  simp at hb

/-- C6 amended: when the final-verdict response defeats every parsing
attempt — no parsable fenced code block, no parsable brace-delimited
substring after quote normalization, and no individually extractable
required key — the verdict returned by `generate_final_analysis` is the
fixed `default_analysis` dict; the signal-vote fallback is reserved for the
case where the LLM call itself fails. -/
theorem c6_amended_default_on_parse_failure (text : String) (sigs : TickerSignals)
    (h1 : firstSuccess json_loads (findCodeBlocks text) = none)
    (h2 : firstSuccess (fun m => json_loads (replaceSingleQuotes m))
      (findBraceMatches text) = none)
    (h3 : required_keys.filterMap (fun k => (searchKeyValue k text).map ((k, ·))) = []) :
    generate_final_analysis (fun _ => .ok text) sigs = default_analysis := by
  have e : generate_final_analysis (fun _ => .ok text) sigs =
      validateAnalysisJson (selectAnalysisJson text) sigs := rfl
  have e2 : selectAnalysisJson text = Json.obj default_analysis := by
    unfold selectAnalysisJson
    rw [h1, h2, h3]
  rw [e, e2]
  rfl

/-- Witness for the amended C6 at the concrete unparsable response. -/
theorem c6_amended_default_on_parse_failure_witness :
    generate_final_analysis (fun _ => .ok unparsableResponse) c6Sigs = default_analysis :=
  c6_amended_default_on_parse_failure unparsableResponse c6Sigs rfl rfl rfl

/-- C7 counterexample: with every attempt rate-limited, the code sleeps
2, 4, 8 and 16 seconds — four backoff sleeps, not the claimed five ending in
32 — before falling back to the signal vote. -/
theorem c7_backoff_sleeps_are_four :
    final_analysis_sleeps rateLimitedAlways = [2, 4, 8, 16] ∧
    final_analysis_sleeps rateLimitedAlways ≠ [2, 4, 8, 16, 32] ∧
    generate_final_analysis rateLimitedAlways c6Sigs = generate_fallback_analysis c6Sigs := by
  refine ⟨rfl, ?_, rfl⟩
  intro h
  have e : final_analysis_sleeps rateLimitedAlways = [2, 4, 8, 16] := rfl
  rw [h] at e
  simp at e

/-- C7 amended: the final-verdict call makes at most five attempts, i.e. up
to four retries after rate-limit errors with backoff sleeps 2, 4, 8, 16
seconds; any non-rate-limit error, or exhaustion of the attempts, yields the
signal-vote fallback, and a successful attempt feeds the parsing pipeline. -/
theorem c7_amended_retry_policy (llmCall : ℕ → LLMCallOutcome) (sigs : TickerSignals) :
    (final_analysis_sleeps llmCall).length ≤ 4 ∧
    (∀ k, k < 5 → (∀ j, j < k → llmCall j = .rateLimited) → llmCall k = .otherFailure →
      generate_final_analysis llmCall sigs = generate_fallback_analysis sigs ∧
      final_analysis_sleeps llmCall = (List.range k).map (fun i => 2 * 2 ^ i)) ∧
    ((∀ j, j < 5 → llmCall j = .rateLimited) →
      generate_final_analysis llmCall sigs = generate_fallback_analysis sigs ∧
      final_analysis_sleeps llmCall = [2, 4, 8, 16]) ∧
    (∀ k t, k < 5 → (∀ j, j < k → llmCall j = .rateLimited) → llmCall k = .ok t →
      generate_final_analysis llmCall sigs =
        validateAnalysisJson (selectAnalysisJson t) sigs) := by
  refine ⟨?_, ?_, ?_, ?_⟩
  · have := retry_sleeps_le llmCall 5 0
    simpa [final_analysis_sleeps] using this
  · intro k hk hj hfail
    interval_cases k
    · constructor <;>
        simp [generate_final_analysis, final_analysis_sleeps, retryAux, hfail]
    · have e0 := hj 0 (by norm_num)
      constructor <;>
        simp [generate_final_analysis, final_analysis_sleeps, retryAux, e0, hfail,
          List.range_succ]
    · have e0 := hj 0 (by norm_num)
      have e1 := hj 1 (by norm_num)
      constructor <;>
        simp [generate_final_analysis, final_analysis_sleeps, retryAux, e0, e1, hfail,
          List.range_succ]
    · have e0 := hj 0 (by norm_num)
      have e1 := hj 1 (by norm_num)
      have e2 := hj 2 (by norm_num)
      constructor <;>
        simp [generate_final_analysis, final_analysis_sleeps, retryAux, e0, e1, e2, hfail,
          List.range_succ]
    · have e0 := hj 0 (by norm_num)
      have e1 := hj 1 (by norm_num)
      have e2 := hj 2 (by norm_num)
      have e3 := hj 3 (by norm_num)
      constructor <;>
        simp [generate_final_analysis, final_analysis_sleeps, retryAux, e0, e1, e2, e3,
          hfail, List.range_succ]
  · intro hall
    have e0 := hall 0 (by norm_num)
    have e1 := hall 1 (by norm_num)
    have e2 := hall 2 (by norm_num)
    have e3 := hall 3 (by norm_num)
    have e4 := hall 4 (by norm_num)
    constructor <;>
      simp [generate_final_analysis, final_analysis_sleeps, retryAux, e0, e1, e2, e3, e4]
  · intro k t hk hj hok
    interval_cases k
    · simp [generate_final_analysis, retryAux, hok]
    · have e0 := hj 0 (by norm_num)
      simp [generate_final_analysis, retryAux, e0, hok]
    · have e0 := hj 0 (by norm_num)
      have e1 := hj 1 (by norm_num)
      simp [generate_final_analysis, retryAux, e0, e1, hok]
    · have e0 := hj 0 (by norm_num)
      have e1 := hj 1 (by norm_num)
      have e2 := hj 2 (by norm_num)
      simp [generate_final_analysis, retryAux, e0, e1, e2, hok]
    · have e0 := hj 0 (by norm_num)
      have e1 := hj 1 (by norm_num)
      have e2 := hj 2 (by norm_num)
      have e3 := hj 3 (by norm_num)
      simp [generate_final_analysis, retryAux, e0, e1, e2, e3, hok]

/-- Witness for the amended C7 on the always-rate-limited call. -/
theorem c7_amended_retry_policy_witness :
    generate_final_analysis rateLimitedAlways c6Sigs = generate_fallback_analysis c6Sigs ∧
    final_analysis_sleeps rateLimitedAlways = [2, 4, 8, 16] :=
  (c7_amended_retry_policy rateLimitedAlways c6Sigs).2.2.1 (fun j _ => rfl)

/-- C8 counterexample: with three neutral analysts of confidences 10, 40, 90
(in analyst order), the code selects the first two in analyst order — the
highest-confidence neutral analyst is excluded and the lowest included — so
the neutral category is not taken top-2 by confidence as claimed, and no
top-up happens although an unused persona exists (the list has fewer than
four analysts). -/
theorem c8_neutral_bucket_not_sorted :
    select_primary_debaters c8NeutralSigs c8NeutralAnalysts =
      [mkPersona "n1", mkPersona "n2"] ∧
    mkPersona "n3" ∉ select_primary_debaters c8NeutralSigs c8NeutralAnalysts ∧
    ((alookup "n3" c8NeutralSigs).bind (·.confidence)).getD 50 = 90 ∧
    ((alookup "n1" c8NeutralSigs).bind (·.confidence)).getD 50 = 10 :=
  ⟨by decide, by decide, rfl, rfl⟩

/-- C8 amended: `select_primary_debaters` partitions the present personas by
signal, orders the bullish and bearish categories by confidence descending
(stably) while keeping the neutral category in analyst-list order, takes up
to the first two of each, de-duplicates, and fills the remaining slots up to
four from unused personas only when the analyst list has at least four
entries — equivalently, it equals the specification function written from
those words; on the spec's example (three bullish 90/70/50, one bearish 60,
one neutral 40) it selects exactly bullish-90, bullish-70, bearish-60 and
neutral-40. -/
theorem c8_amended_selection :
    (∀ (sigs : TickerSignals) (analysts : List AnalystPersona),
      select_primary_debaters sigs analysts = select_primary_debaters_spec sigs analysts) ∧
    select_primary_debaters c8Sigs c8Analysts =
      [mkPersona "b1", mkPersona "b2", mkPersona "br1", mkPersona "nu1"] := by
  constructor
  · intro sigs analysts
    have hb := entries_proj_eq sigs analysts (fun s => s = "bullish")
    have hr := entries_proj_eq sigs analysts (fun s => s = "bearish")
    have hn := entries_proj_eq sigs analysts (fun s => s ≠ "bullish" ∧ s ≠ "bearish")
    simp only [select_primary_debaters, select_primary_debaters_spec]
    rw [hb, hr, hn]
  · decide

/-- C9 counterexample: with an empty analyst-signal map, `run_round_table`
returns the empty mapping, so the ticker "AAPL" from the input list has no
entry — refuting the claim that every input ticker gets an entry. -/
theorem c9_missing_ticker_entry :
    run_round_table [] ["AAPL"] silentOracle = [] ∧
    alookup "AAPL" (run_round_table [] ["AAPL"] silentOracle) = none :=
  ⟨rfl, rfl⟩

/-- C9 amended: `run_round_table` returns an entry for every input ticker
that has at least one signal from an agent other than the filtered
`risk_management_agent` and `round_table` entries; tickers without such a
signal are skipped, and an empty signal map yields an empty mapping. -/
theorem c9_amended_entry_for_signaled_tickers
    (analyst_signals : List (String × List (String × SignalData)))
    (tickers : List String) (oracle : RTOracle) (ticker : String)
    (hmem : ticker ∈ tickers)
    (hsig : ∃ p ∈ analyst_signals, (p.1 ≠ "risk_management_agent" ∧ p.1 ≠ "round_table") ∧
      (alookup ticker p.2).isSome) :
    (alookup ticker (run_round_table analyst_signals tickers oracle)).isSome := by
  obtain ⟨p, hp, hfilt, hsome⟩ := hsig
  have hne : analyst_signals.isEmpty = false := by
    cases analyst_signals with
    | nil => simp at hp
    | cons q rest => rfl
  have hpf : p ∈ analyst_signals.filter
      (fun p => p.1 ≠ "risk_management_agent" ∧ p.1 ≠ "round_table") :=
    List.mem_filter.2 ⟨hp, decide_eq_true ⟨hfilt.1, hfilt.2⟩⟩
  have hts : ((analyst_signals.filter
      (fun p => p.1 ≠ "risk_management_agent" ∧ p.1 ≠ "round_table")).filterMap
      (fun p => (alookup ticker p.2).map (fun d => (p.1, d)))).isEmpty = false := by
    rw [List.isEmpty_eq_false_iff_exists_mem]
    cases hv : alookup ticker p.2 with
    | none => rw [hv] at hsome; simp at hsome
    | some d => exact ⟨(p.1, d), List.mem_filterMap.2 ⟨p, hpf, by rw [hv]; rfl⟩⟩
  unfold run_round_table
  rw [hne]
  simp only [Bool.false_eq_true, if_false]
  suffices h : ∀ (ts : List String) (acc : List (String × RoundTableOutput)),
      ticker ∈ ts ∨ (alookup ticker acc).isSome →
      (alookup ticker (ts.foldl (fun acc t =>
        let ticker_signals := (analyst_signals.filter
          (fun p => p.1 ≠ "risk_management_agent" ∧ p.1 ≠ "round_table")).filterMap
          (fun p => (alookup t p.2).map (fun d => (p.1, d)))
        if ticker_signals.isEmpty then acc
        else aset t (simulate_round_table t ticker_signals oracle) acc) acc)).isSome by
    exact h tickers [] (Or.inl hmem)
  intro ts
  induction ts with
  | nil =>
    intro acc h
    rcases h with h | h
    · simp at h
    · simpa using h
  | cons t rest ih =>
    intro acc h
    simp only [List.foldl_cons]
    apply ih
    rcases h with h | h
    · rcases List.mem_cons.1 h with rfl | h2
      · right
        rw [hts]
        simp only [Bool.false_eq_true, if_false]
        rw [alookup_aset, if_pos rfl]
        rfl
      · left
        exact h2
    · right
      split
      · exact h
      · rw [alookup_aset]
        split
        · simp
        · exact h

/-- Witness for the amended C9 on one agent, one ticker. -/
theorem c9_amended_entry_for_signaled_tickers_witness :
    (alookup "AAPL" (run_round_table c9Signals ["AAPL"] silentOracle)).isSome :=
  c9_amended_entry_for_signaled_tickers c9Signals ["AAPL"] silentOracle "AAPL" (by decide)
    ⟨("ben_graham_agent", [("AAPL", { signal := some "bullish", confidence := some 70 })]),
      by decide, ⟨by decide, by decide⟩, by decide⟩

/-- C10: every round-table output transcript is assembled append-only: it
begins with the fixed moderator introduction for the ticker, followed in
order by the opening-positions segment, the questioning/debate/synthesis
turns, and the moderator conclusion; each intermediate transcript state is
an extension of the previous one, and the final output carries exactly the
final state. -/
theorem c10_transcript_append_only (ticker : String) (sigs : TickerSignals)
    (oracle : RTOracle) :
    (simulate_round_table ticker sigs oracle).conversation_transcript =
      generate_moderator_intro ticker ++ openingsSegment sigs oracle ++
      ("\n\n" ++ "\n\n".intercalate (conversationTurns oracle)) ++
      conclusionSegment ticker oracle ∧
    transcriptAfterIntro ticker = generate_moderator_intro ticker ∧
    (∃ r, transcriptAfterOpenings ticker sigs oracle = transcriptAfterIntro ticker ++ r) ∧
    (∃ r, transcriptAfterTurns ticker sigs oracle =
      transcriptAfterOpenings ticker sigs oracle ++ r) ∧
    (∃ r, transcriptFinal ticker sigs oracle = transcriptAfterTurns ticker sigs oracle ++ r) ∧
    (simulate_round_table ticker sigs oracle).conversation_transcript =
      transcriptFinal ticker sigs oracle :=
  ⟨rfl, rfl, ⟨_, rfl⟩, ⟨_, rfl⟩, ⟨_, rfl⟩, rfl⟩

end AIHedgeFund
